import Mathlib

/-!
A verification development for the purplequery evaluation engine
(`dataframe_node.py`, `purplequery/evaluatable_node.py`).

The Python/pandas code is shallowly embedded: pandas `Series` and
`DataFrame` values become index-tagged lists of cells, pandas operations
(`concat`, `sort_values`, `groupby`, `loc`, `transform`) become explicit
Lean functions with the semantics the code relies on, and Python
exceptions become an `Except` monad over a structured error type.
Support modules that are referenced but whose source is not part of the
repository snapshot (`bq_types`, `bq_abstract_syntax_tree`, `join`,
`binary_expression`) are modelled from the specification; each such
definition carries a doc comment saying so.
-/

deriving instance DecidableEq for Except

namespace PurpleQuery

/-- Scalar types.  From `bq_types.BQScalarType` (the claims only need
scalar types, so arrays and structs are omitted). -/
inductive BQScalarType where
  | integer
  | float
  | boolean
  | string
  | timestamp
deriving DecidableEq, Repr

abbrev BQType := BQScalarType

/-- A single cell of data: the Python runtime values that can sit in a
pandas column in this program.  `null` models `None`/`NaN`. -/
inductive Cell where
  | int (i : Int)
  | float (q : Rat)
  | str (s : String)
  | bool (b : Bool)
  | null
deriving DecidableEq, Repr

/-- Python `str()` of a cell value, used when the code interpolates a
value into an error message with `format`. -/
def Cell.pyStr : Cell → String
  | .int i => toString i
  | .float q => toString q
  | .str s => s
  | .bool b => if b then "True" else "False"
  | .null => "None"

/-- Python `isinstance(v, int)` together with the integer value of `v`:
Python `bool` is a subclass of `int` (`isinstance(True, int)` holds,
`True == 1` and `False == 0`), so boolean cells count as integer
literals wherever the code tests `isinstance(..., int)`. -/
def Cell.asPyInt : Cell → Option Int
  | .int n => some n
  | .bool b => some (if b then 1 else 0)
  | _ => none

/-- The Python exceptions raised by the code, with their messages. -/
inductive PyError where
  | valueError (msg : String)
  | notImplementedError (msg : String)
  | typeError (msg : String)
  | keyError (msg : String)
  | indexError (msg : String)
  | runtimeError (msg : String)
deriving DecidableEq, Repr

/-- A pandas index label.  The default `RangeIndex` tags row `i` with
`[.int i]`; a groupby result is indexed by the list of group-key cells. -/
abbrev Idx := List Cell

/-- A pandas `Series`: an ordered list of (index label, value) pairs,
plus an optional name. -/
structure PSeries where
  rows : List (Idx × Cell)
  name : Option String
deriving DecidableEq, Repr

/-- A pandas `SeriesGroupBy`: for each group, the group-key index and
the member values (tagged with their original index labels, in order). -/
structure PSeriesGroupBy where
  groups : List (Idx × List (Idx × Cell))
  name : Option String
deriving DecidableEq, Repr

/-- The result of evaluating an expression: either an ordinary column or
a grouped column (`pd.core.groupby.SeriesGroupBy`). -/
inductive SeriesOrGrouped where
  | series (s : PSeries)
  | grouped (g : PSeriesGroupBy)
deriving DecidableEq, Repr

/-- From `bq_types.TypedSeries`: a column of data together with its type.
Modelled from the spec: `bq_types.py` is not part of the snapshot; §3 of
the spec describes a typed column as data plus one type, with the NULL
literal typed `None` (hence the `Option`). -/
structure TypedSeries where
  series : SeriesOrGrouped
  type_ : Option BQType
deriving DecidableEq, Repr

/-- A pandas `DataFrame`: ordered column names and index-tagged rows
(each row holds one cell per column). -/
structure PDataFrame where
  cols : List String
  rows : List (Idx × List Cell)
deriving DecidableEq, Repr

/-- From `bq_types.TypedDataFrame`: a dataframe plus a list of column
types.  Modelled from the spec (§3): "a table = ordered list of named,
typed columns of equal length"; the types list is stored separately from
the dataframe exactly as in the source's `TypedDataFrame(dataframe,
types)` calls. -/
structure TypedDataFrame where
  dataframe : PDataFrame
  types : List (Option BQType)
deriving DecidableEq, Repr

/-- The catalog: project -> dataset -> table name -> table (spec §6). -/
abbrev Datasets := List (String × List (String × List (String × TypedDataFrame)))

/-- Association-list lookup keyed on the first component. -/
def alookup {α : Type} [DecidableEq α] {β : Type} (k : α) : List (α × β) → Option β
  | [] => none
  | (k', v) :: rest => if k = k' then some v else alookup k rest

/-- From `bq_types.implicitly_coerce`, binary case.  Modelled from the
spec (§4.1, §8): returns the narrowest common supertype; symmetric and
idempotent; INTEGER and FLOAT coerce to FLOAT; the NULL type (`none`)
coerces to anything; incompatible kinds (e.g. numeric vs string) raise
the coercion error the repository's tests expect ("Cannot implicitly
coerce the given types"). -/
def implicitly_coerce (t1 t2 : Option BQType) : Except PyError (Option BQType) :=
  match t1, t2 with
  | none, t => .ok t
  | t, none => .ok t
  | some a, some b =>
    if a = b then .ok (some a)
    else match a, b with
      | .integer, .float => .ok (some .float)
      | .float, .integer => .ok (some .float)
      | _, _ => .error (.valueError
          ("Cannot implicitly coerce the given types: " ++ reprStr a ++ ", " ++ reprStr b))

/-- Sequence a list of `Except` computations. -/
def exceptList {ε α : Type} : List (Except ε α) → Except ε (List α)
  | [] => .ok []
  | x :: xs => do
    let v ← x
    let vs ← exceptList xs
    .ok (v :: vs)

/-! ## Ordering of cells

pandas compares the values stored in columns when sorting
(`sort_values`) and when ordering group keys (`groupby(sort=True)`).
We model the comparison by mapping every cell into one lexicographic
linear order (constructor tag first, then the payload), which gives all
comparator laws for free from the linear-order axioms. -/

/-- A copy of the rationals whose order relations are stated by integer
cross-multiplication, so that comparisons of concrete values reduce in
the kernel (the standard `Rat` decidable order does not). -/
structure RatKey where
  val : Rat
deriving DecidableEq

theorem ratCross_le_iff (a b : Rat) :
    a.num * (b.den : Int) ≤ b.num * (a.den : Int) ↔ a ≤ b := by
  rw [← Rat.num_div_den a, ← Rat.num_div_den b,
    div_le_div_iff (by exact_mod_cast a.pos) (by exact_mod_cast b.pos),
    Rat.num_div_den a, Rat.num_div_den b]
  constructor
  · intro h
    exact_mod_cast h
  · intro h
    exact_mod_cast h

theorem ratCross_lt_iff (a b : Rat) :
    a.num * (b.den : Int) < b.num * (a.den : Int) ↔ a < b := by
  rw [← Rat.num_div_den a, ← Rat.num_div_den b,
    div_lt_div_iff (by exact_mod_cast a.pos) (by exact_mod_cast b.pos),
    Rat.num_div_den a, Rat.num_div_den b]
  constructor
  · intro h
    exact_mod_cast h
  · intro h
    exact_mod_cast h

instance : LE RatKey :=
  ⟨fun a b => a.val.num * (b.val.den : Int) ≤ b.val.num * (a.val.den : Int)⟩

instance : LT RatKey :=
  ⟨fun a b => a.val.num * (b.val.den : Int) < b.val.num * (a.val.den : Int)⟩

theorem RatKey.le_iff {a b : RatKey} : a ≤ b ↔ a.val ≤ b.val :=
  ratCross_le_iff a.val b.val

theorem RatKey.lt_iff {a b : RatKey} : a < b ↔ a.val < b.val :=
  ratCross_lt_iff a.val b.val

instance : LinearOrder RatKey where
  le := (· ≤ ·)
  lt := (· < ·)
  le_refl a := RatKey.le_iff.mpr (le_refl _)
  le_trans a b c hab hbc :=
    RatKey.le_iff.mpr ((RatKey.le_iff.mp hab).trans (RatKey.le_iff.mp hbc))
  le_antisymm a b h1 h2 := by
    cases a
    cases b
    congr 1
    exact le_antisymm (RatKey.le_iff.mp h1) (RatKey.le_iff.mp h2)
  le_total a b := by
    rcases le_total a.val b.val with h | h
    · exact Or.inl (RatKey.le_iff.mpr h)
    · exact Or.inr (RatKey.le_iff.mpr h)
  lt_iff_le_not_le a b := by
    rw [RatKey.lt_iff, RatKey.le_iff, RatKey.le_iff]
    exact lt_iff_le_not_le
  decidableLE a b :=
    inferInstanceAs (Decidable (a.val.num * (b.val.den : Int) ≤ b.val.num * (a.val.den : Int)))

/-- One linear order into which every cell embeds.  Strings are compared
through their character lists and rationals through `RatKey`, both of
which the kernel can evaluate. -/
abbrev CellKey := Lex (Nat × Lex (Int × Lex (RatKey × Lex (List Char × Bool))))

/-- The embedding of a cell into `CellKey`. -/
def Cell.key : Cell → CellKey
  | .null => toLex (0, toLex (0, toLex (⟨0⟩, toLex ([], false))))
  | .bool b => toLex (1, toLex (0, toLex (⟨0⟩, toLex ([], b))))
  | .int i => toLex (2, toLex (i, toLex (⟨0⟩, toLex ([], false))))
  | .float q => toLex (3, toLex (0, toLex (⟨q⟩, toLex ([], false))))
  | .str s => toLex (4, toLex (0, toLex (⟨0⟩, toLex (s.data, false))))

/-- Three-way comparison induced by a linear order. -/
def cmpOfLO {α : Type} [LinearOrder α] (a b : α) : Ordering :=
  if a < b then .lt else if a = b then .eq else .gt

theorem cmpOfLO_eq_iff {α : Type} [LinearOrder α] {a b : α} :
    cmpOfLO a b = .eq ↔ a = b := by
  unfold cmpOfLO
  rcases lt_trichotomy a b with h | h | h
  · simp [h, h.ne]
  · simp [h, lt_irrefl]
  · simp [h.ne', not_lt_of_gt h]

theorem cmpOfLO_swap {α : Type} [LinearOrder α] (a b : α) :
    cmpOfLO b a = (cmpOfLO a b).swap := by
  unfold cmpOfLO
  rcases lt_trichotomy a b with h | h | h
  · simp [h, h.ne', not_lt_of_gt h, Ordering.swap]
  · simp [h, lt_irrefl, Ordering.swap]
  · simp [h, h.ne', not_lt_of_gt h, Ordering.swap]

theorem cmpOfLO_lt_iff {α : Type} [LinearOrder α] {a b : α} :
    cmpOfLO a b = .lt ↔ a < b := by
  unfold cmpOfLO
  rcases lt_trichotomy a b with h | h | h
  · simp [h]
  · simp [h, lt_irrefl]
  · simp [h.ne', not_lt_of_gt h]

theorem cmpOfLO_ne_gt_iff {α : Type} [LinearOrder α] {a b : α} :
    cmpOfLO a b ≠ .gt ↔ a ≤ b := by
  unfold cmpOfLO
  rcases lt_trichotomy a b with h | h | h
  · simp [h, le_of_lt h]
  · simp [h, lt_irrefl]
  · simp [h.ne', not_lt_of_gt h, not_le_of_gt h]

/-- The comparison pandas applies to two cells. -/
def cmpCell (a b : Cell) : Ordering := cmpOfLO a.key b.key

/-- Comparison of one cell for one sort key, honouring the sort
direction (`true` = ascending): descending order flips the arguments. -/
def dirCmpCell (asc : Bool) (a b : Cell) : Ordering :=
  if asc then cmpCell a b else cmpCell b a

theorem dirCmpCell_eq_iff {asc : Bool} {a b : Cell} :
    dirCmpCell asc a b = .eq ↔ a.key = b.key := by
  cases asc
  · show cmpCell b a = .eq ↔ a.key = b.key
    exact Iff.trans cmpOfLO_eq_iff eq_comm
  · show cmpCell a b = .eq ↔ a.key = b.key
    exact cmpOfLO_eq_iff

theorem dirCmpCell_swap (asc : Bool) (a b : Cell) :
    dirCmpCell asc b a = (dirCmpCell asc a b).swap := by
  cases asc
  · show cmpCell a b = (cmpCell b a).swap
    exact cmpOfLO_swap b.key a.key
  · show cmpCell b a = (cmpCell a b).swap
    exact cmpOfLO_swap a.key b.key

theorem dirCmpCell_lt_trans {asc : Bool} {a b c : Cell}
    (h1 : dirCmpCell asc a b = .lt) (h2 : dirCmpCell asc b c = .lt) :
    dirCmpCell asc a c = .lt := by
  cases asc
  · show cmpCell c a = .lt
    have h1' : cmpCell b a = .lt := h1
    have h2' : cmpCell c b = .lt := h2
    rw [cmpCell, cmpOfLO_lt_iff] at h1' h2' ⊢
    exact lt_trans h2' h1'
  · show cmpCell a c = .lt
    have h1' : cmpCell a b = .lt := h1
    have h2' : cmpCell b c = .lt := h2
    rw [cmpCell, cmpOfLO_lt_iff] at h1' h2' ⊢
    exact lt_trans h1' h2'

theorem dirCmpCell_congr_left {a b : Cell} (h : a.key = b.key) (asc : Bool) (c : Cell) :
    dirCmpCell asc a c = dirCmpCell asc b c := by
  unfold dirCmpCell cmpCell
  rw [h]

theorem dirCmpCell_congr_right {a b : Cell} (h : a.key = b.key) (asc : Bool) (c : Cell) :
    dirCmpCell asc c a = dirCmpCell asc c b := by
  unfold dirCmpCell cmpCell
  rw [h]

/-- The cell of `row` sitting in the column named `c`, given the
dataframe's column list (`.null` when the column is absent, which does
not arise for resolved sort keys). -/
def cellAt (cols : List String) (c : String) (row : List Cell) : Cell :=
  match cols.findIdx? (fun x => x = c) with
  | some i => row.getD i .null
  | none => .null

/-- Lexicographic multi-key comparison of two rows: each sort key is a
column name and an ascending flag; the first key that distinguishes the
rows decides. -/
def keyCmp (cols : List String) (keys : List (String × Bool))
    (r1 r2 : List Cell) : Ordering :=
  match keys with
  | [] => .eq
  | (c, asc) :: rest =>
    if dirCmpCell asc (cellAt cols c r1) (cellAt cols c r2) = .eq
    then keyCmp cols rest r1 r2
    else dirCmpCell asc (cellAt cols c r1) (cellAt cols c r2)

/-- The "less or equal" used to sort index-tagged rows; only the data
cells are compared, never the index. -/
def rowLe (cols : List String) (keys : List (String × Bool))
    (r1 r2 : Idx × List Cell) : Prop :=
  keyCmp cols keys r1.2 r2.2 ≠ .gt

instance (cols : List String) (keys : List (String × Bool)) :
    DecidableRel (rowLe cols keys) := fun r1 r2 =>
  inferInstanceAs (Decidable (keyCmp cols keys r1.2 r2.2 ≠ .gt))

theorem keyCmp_swap (cols : List String) (r1 r2 : List Cell) :
    ∀ keys, keyCmp cols keys r2 r1 = (keyCmp cols keys r1 r2).swap
  | [] => by simp [keyCmp, Ordering.swap]
  | (c, asc) :: rest => by
    simp only [keyCmp]
    rw [dirCmpCell_swap]
    rcases h : dirCmpCell asc (cellAt cols c r1) (cellAt cols c r2) with _ | _ | _ <;>
      simp [Ordering.swap, keyCmp_swap cols r1 r2 rest]

theorem rowLe_total (cols : List String) (keys : List (String × Bool))
    (r1 r2 : Idx × List Cell) : rowLe cols keys r1 r2 ∨ rowLe cols keys r2 r1 := by
  unfold rowLe
  rw [keyCmp_swap cols r1.2 r2.2 keys]
  rcases h : keyCmp cols keys r1.2 r2.2 with _ | _ | _ <;> simp [h, Ordering.swap]

theorem keyCmp_ne_gt_trans (cols : List String) (r1 r2 r3 : List Cell) :
    ∀ keys, keyCmp cols keys r1 r2 ≠ .gt → keyCmp cols keys r2 r3 ≠ .gt →
      keyCmp cols keys r1 r3 ≠ .gt
  | [] => by simp [keyCmp]
  | (c, asc) :: rest => by
    intro h1 h2
    simp only [keyCmp] at h1 h2 ⊢
    rcases hab : dirCmpCell asc (cellAt cols c r1) (cellAt cols c r2) with _ | _ | _ <;>
      rcases hbc : dirCmpCell asc (cellAt cols c r2) (cellAt cols c r3) with _ | _ | _
    case lt.lt =>
      rw [dirCmpCell_lt_trans hab hbc]
      simp
    case lt.eq =>
      have hd : dirCmpCell asc (cellAt cols c r1) (cellAt cols c r3) = .lt := by
        rw [← dirCmpCell_congr_right (dirCmpCell_eq_iff.mp hbc) asc (cellAt cols c r1)]
        exact hab
      rw [hd]
      simp
    case lt.gt =>
      rw [hbc] at h2
      simp at h2
    case eq.lt =>
      have hd : dirCmpCell asc (cellAt cols c r1) (cellAt cols c r3) = .lt := by
        rw [dirCmpCell_congr_left (dirCmpCell_eq_iff.mp hab) asc (cellAt cols c r3)]
        exact hbc
      rw [hd]
      simp
    case eq.eq =>
      have hd : dirCmpCell asc (cellAt cols c r1) (cellAt cols c r3) = .eq := by
        rw [dirCmpCell_eq_iff] at hab hbc ⊢
        exact hab.trans hbc
      rw [hab] at h1
      rw [hbc] at h2
      rw [hd]
      simp only [if_true, reduceIte] at h1 h2 ⊢
      exact keyCmp_ne_gt_trans cols r1 r2 r3 rest h1 h2
    case eq.gt =>
      rw [hbc] at h2
      simp at h2
    case gt.lt =>
      rw [hab] at h1
      simp at h1
    case gt.eq =>
      rw [hab] at h1
      simp at h1
    case gt.gt =>
      rw [hab] at h1
      simp at h1

theorem rowLe_trans {cols : List String} {keys : List (String × Bool)}
    {r1 r2 r3 : Idx × List Cell}
    (h1 : rowLe cols keys r1 r2) (h2 : rowLe cols keys r2 r3) :
    rowLe cols keys r1 r3 :=
  keyCmp_ne_gt_trans cols r1.2 r2.2 r3.2 keys h1 h2

instance (cols : List String) (keys : List (String × Bool)) :
    IsTotal (Idx × List Cell) (rowLe cols keys) :=
  ⟨rowLe_total cols keys⟩

instance (cols : List String) (keys : List (String × Bool)) :
    IsTrans (Idx × List Cell) (rowLe cols keys) :=
  ⟨fun _ _ _ => rowLe_trans⟩

/-- pandas `DataFrame.sort_values(by, ascending)`.  With two or more
keys pandas sorts by `lexsort`, which is stable; with a single key it
falls through to numpy quicksort, whose tie order is unspecified (and
not derivable from these sources).  The model realises one admissible
outcome — a sorted permutation of the rows, by a stable insertion
sort — and the theorems assert tie-order preservation only for key
lists of length at least two, claiming only sortedness and permutation
for a single key. -/
def sort_values (df : PDataFrame) (keys : List (String × Bool)) : PDataFrame :=
  { cols := df.cols, rows := df.rows.insertionSort (rowLe df.cols keys) }

/-! ## Further pandas primitives -/

/-- pandas `pd.concat([l, r])` (axis 0): the columns of the result are
the union of the two column sets — aligned **by name**, not by position
— with cells of absent columns filled with `NaN`; the index labels of
both inputs are kept. -/
def pd_concat (l r : PDataFrame) : PDataFrame :=
  { cols := l.cols ++ r.cols.filter (fun c => decide (c ∉ l.cols)),
    rows :=
      l.rows.map (fun p =>
        (p.1, (l.cols ++ r.cols.filter (fun c => decide (c ∉ l.cols))).map
          (fun c => if c ∈ l.cols then cellAt l.cols c p.2 else .null))) ++
      r.rows.map (fun p =>
        (p.1, (l.cols ++ r.cols.filter (fun c => decide (c ∉ l.cols))).map
          (fun c => if c ∈ r.cols then cellAt r.cols c p.2 else .null))) }

theorem cellAt_cons_ne {c c' : String} (h : c' ≠ c) (cs : List String)
    (x : Cell) (xs : List Cell) :
    cellAt (c :: cs) c' (x :: xs) = cellAt cs c' xs := by
  unfold cellAt
  rw [List.findIdx?_cons]
  rw [if_neg (by simpa using Ne.symm h)]
  rw [List.findIdx?_succ]
  rcases hf : cs.findIdx? (fun x => x = c') with _ | i <;> simp [hf]

theorem cellAt_cons_self (c : String) (cs : List String) (x : Cell) (xs : List Cell) :
    cellAt (c :: cs) c (x :: xs) = x := by
  unfold cellAt
  rw [List.findIdx?_cons]
  rw [if_pos (by simp)]
  simp

/-- Reading every column of a well-formed row back by name returns the
row itself (pandas rows are rectangular and column names unique). -/
theorem map_cellAt_eq_self :
    ∀ (cols : List String) (row : List Cell), cols.Nodup → row.length = cols.length →
      cols.map (fun c => cellAt cols c row) = row
  | [], [], _, _ => rfl
  | [], _ :: _, _, hlen => by simp at hlen
  | _ :: _, [], _, hlen => by simp at hlen
  | c :: cs, x :: xs, hnd, hlen => by
    simp only [List.nodup_cons] at hnd
    simp only [List.map_cons]
    rw [cellAt_cons_self]
    congr 1
    have step : ∀ c' ∈ cs, cellAt (c :: cs) c' (x :: xs) = cellAt cs c' xs := by
      intro c' hc'
      refine cellAt_cons_ne (fun he => hnd.1 ?_) cs x xs
      rw [← he]
      exact hc'
    rw [List.map_congr_left step]
    exact map_cellAt_eq_self cs xs hnd.2 (by simpa using hlen)

/-- When the two sides carry the identical ordered column-name list and
rows are rectangular, name alignment degenerates to appending the rows. -/
theorem pd_concat_same_cols (l r : PDataFrame) (hc : l.cols = r.cols)
    (hnd : l.cols.Nodup)
    (hl : ∀ p ∈ l.rows, (p : Idx × List Cell).2.length = l.cols.length)
    (hr : ∀ p ∈ r.rows, (p : Idx × List Cell).2.length = l.cols.length) :
    pd_concat l r = { cols := l.cols, rows := l.rows ++ r.rows } := by
  unfold pd_concat
  have hfilter : r.cols.filter (fun c => decide (c ∉ l.cols)) = [] := by
    rw [List.filter_eq_nil_iff]
    intro c hcmem
    simp only [decide_eq_true_eq, Decidable.not_not]
    exact hc ▸ hcmem
  rw [hfilter]
  simp only [List.append_nil]
  congr 1
  have hmapl : ∀ p ∈ l.rows, (p.1, l.cols.map
      (fun c => if c ∈ l.cols then cellAt l.cols c p.2 else Cell.null)) = p := by
    intro p hp
    have heq : l.cols.map (fun c => if c ∈ l.cols then cellAt l.cols c p.2 else Cell.null)
        = l.cols.map (fun c => cellAt l.cols c p.2) := by
      apply List.map_congr_left
      intro c hcmem
      rw [if_pos hcmem]
    rw [heq, map_cellAt_eq_self l.cols p.2 hnd (hl p hp)]
  have hmapr : ∀ p ∈ r.rows, (p.1, l.cols.map
      (fun c => if c ∈ r.cols then cellAt r.cols c p.2 else Cell.null)) = p := by
    intro p hp
    have heq : l.cols.map (fun c => if c ∈ r.cols then cellAt r.cols c p.2 else Cell.null)
        = l.cols.map (fun c => cellAt l.cols c p.2) := by
      apply List.map_congr_left
      intro c hcmem
      rw [if_pos (hc ▸ hcmem), hc]
    rw [heq, map_cellAt_eq_self l.cols p.2 hnd (hr p hp)]
  rw [List.map_congr_left hmapl, List.map_congr_left hmapr, List.map_id', List.map_id']

/-- Lexicographic comparison of two index labels. -/
def idxCmp : Idx → Idx → Ordering
  | [], [] => .eq
  | [], _ :: _ => .lt
  | _ :: _, [] => .gt
  | a :: as, b :: bs => if cmpCell a b = .eq then idxCmp as bs else cmpCell a b

/-- The group key of one row: the cells in the grouping columns. -/
def groupKeyOf (cols : List String) (keys : List String) (row : List Cell) : Idx :=
  keys.map (fun k => cellAt cols k row)

/-- pandas `df.groupby(keys)` (with its default `sort=True`): the
distinct key combinations in sorted order, each with the member rows in
frame order. -/
def groupsOf (df : PDataFrame) (keys : List String) :
    List (Idx × List (Idx × List Cell)) :=
  ((df.rows.map (fun p => groupKeyOf df.cols keys p.2)).dedup.insertionSort
      (fun a b => idxCmp a b ≠ .gt)).map
    (fun k => (k, df.rows.filter (fun p => groupKeyOf df.cols keys p.2 = k)))

/-- pandas boolean-mask row selection `df.loc[mask]`: keep the rows whose
index label the mask sends to `True`. -/
def locBool (rows : List (Idx × List Cell)) (mask : List (Idx × Cell)) :
    List (Idx × List Cell) :=
  rows.filter (fun p => alookup p.1 mask = some (.bool true))

/-- Same selection for a series. -/
def locBoolSeries (rows : List (Idx × Cell)) (mask : List (Idx × Cell)) :
    List (Idx × Cell) :=
  rows.filter (fun p => alookup p.1 mask = some (.bool true))

/-! ## Functions (`purplequery/evaluatable_node.py`) -/

/-- The `_Function` subclasses registered in `FunctionCall._FUNCTION_MAP`
(`Min, Max, Sum, Mod, Concat, Timestamp, Current_Timestamp, Row_Number`;
note `Count` and `Array_agg` are created through dedicated factory
methods and are **not** in the map). -/
inductive FuncInfo where
  | min
  | max
  | sum
  | mod
  | concat
  | timestamp
  | current_timestamp
  | row_number
deriving DecidableEq, Repr

/-- `_Function.name()`: the class name, upper-cased. -/
def FuncInfo.fname : FuncInfo → String
  | .min => "MIN"
  | .max => "MAX"
  | .sum => "SUM"
  | .mod => "MOD"
  | .concat => "CONCAT"
  | .timestamp => "TIMESTAMP"
  | .current_timestamp => "CURRENT_TIMESTAMP"
  | .row_number => "ROW_NUMBER"

/-- Whether the function is an `_AggregatingFunction` subclass. -/
def FuncInfo.is_aggregating : FuncInfo → Bool
  | .min => true
  | .max => true
  | .sum => true
  | _ => false

/-- The contents of `FunctionCall._FUNCTION_MAP`, keyed by name. -/
def FUNCTION_MAP : List (String × FuncInfo) :=
  [("MIN", .min), ("MAX", .max), ("SUM", .sum), ("MOD", .mod), ("CONCAT", .concat),
   ("TIMESTAMP", .timestamp), ("CURRENT_TIMESTAMP", .current_timestamp),
   ("ROW_NUMBER", .row_number)]

/-- `_Function._result_type`: a fixed result type, or `none` meaning
"coerce the argument types". -/
def FuncInfo.result_type : FuncInfo → Option BQType
  | .concat => some .string
  | .timestamp => some .timestamp
  | .current_timestamp => some .timestamp
  | .row_number => some .integer
  | _ => none

/-- n-ary `implicitly_coerce` folded over the argument types. -/
def coerceAll : List (Option BQType) → Except PyError (Option BQType)
  | [] => .ok none
  | t :: rest => rest.foldlM (fun acc x => implicitly_coerce acc x) t

/-- `_Function.compute_result_type`. -/
def FuncInfo.compute_result_type (f : FuncInfo) (argument_types : List (Option BQType)) :
    Except PyError (Option BQType) :=
  match f.result_type with
  | some t => .ok (some t)
  | none => coerceAll argument_types

/-- Wall-clock time is an input from outside the program; the cell
produced by `pd.Timestamp.now()` is represented opaquely.  No claim
observes its value. -/
def pd_Timestamp_now : Cell := .null

/-- Addition of two cells (`operator.add` on pandas series values:
numeric addition, string concatenation, anything involving `NaN` is
`NaN`). -/
def cellAdd : Cell → Cell → Cell
  | .int x, .int y => .int (x + y)
  | .int x, .float y => .float (x + y)
  | .float x, .int y => .float (x + y)
  | .float x, .float y => .float (x + y)
  | .str x, .str y => .str (x ++ y)
  | _, _ => .null

/-- The numeric value of a cell, when it has one. -/
def Cell.asRat? : Cell → Option Rat
  | .int i => some (i : Rat)
  | .float q => some q
  | _ => none

/-- Three-way numeric comparison by integer cross-multiplication (so
that it reduces in the kernel). -/
def numCmp (x y : Rat) : Ordering :=
  if x.num * (y.den : Int) < y.num * (x.den : Int) then .lt
  else if x.num * (y.den : Int) = y.num * (x.den : Int) then .eq
  else .gt

/-- `Sum.aggregating_function`: pandas `Series.sum()` — skips `NaN`,
`0` on an empty numeric column, concatenation on strings. -/
def sumCells (cs : List Cell) : Cell :=
  let nn := cs.filter (fun c => decide (c ≠ .null))
  if nn.all (fun c => match c with | .int _ => true | _ => false) then
    .int (nn.foldl (fun acc c => match c with | .int i => acc + i | _ => acc) 0)
  else if nn.all (fun c => match c with | .int _ => true | .float _ => true | _ => false) then
    .float (nn.foldl (fun acc c =>
      match c with | .int i => acc + i | .float q => acc + q | _ => acc) 0)
  else if nn.all (fun c => match c with | .str _ => true | _ => false) then
    .str (nn.foldl (fun acc c => match c with | .str s => acc ++ s | _ => acc) "")
  else .null

/-- `Min.aggregating_function` / `Max.aggregating_function`: pandas
`Series.min()` / `.max()` — skips `NaN`, `NaN` when empty. -/
def extremumCells (takeMax : Bool) (cs : List Cell) : Cell :=
  let nn := cs.filter (fun c => decide (c ≠ .null))
  match nn with
  | [] => .null
  | c :: rest =>
    rest.foldl (fun acc c' =>
      if (if takeMax then cmpCell acc c' = .lt else cmpCell c' acc = .lt)
      then c' else acc) c

/-- Dispatch of `aggregating_function` for the aggregating functions
(only `Min`, `Max`, `Sum` are both aggregating and in the map). -/
def FuncInfo.aggregating_function (f : FuncInfo) (cs : List Cell) : Cell :=
  match f with
  | .sum => sumCells cs
  | .min => extremumCells false cs
  | .max => extremumCells true cs
  | _ => .null

/-! ## Expression syntax tree (`evaluatable_node.py` and the parts of
`bq_abstract_syntax_tree.py` it relies on) -/

/-- Binary operators.  Modelled from the spec: `binary_expression.py` is
not part of the snapshot; §4.3 lists binary expressions among the
standard per-row transforms. -/
inductive BinOp where
  | add
  | sub
  | gt
  | lt
  | ge
  | le
  | eqOp
  | neOp
deriving DecidableEq, Repr

def BinOp.symbol : BinOp → String
  | .add => "+"
  | .sub => "-"
  | .gt => ">"
  | .lt => "<"
  | .ge => ">="
  | .le => "<="
  | .eqOp => "="
  | .neOp => "!="

/-- The evaluatable AST.  `value`, `selector`, `nonAggregatingFunctionCall`,
`aggregatingFunctionCall` and `analyticFunctionCall` embed the classes in
`evaluatable_node.py` (the analytic node stores, exactly as the source
does, `children = arguments ++ partition_by ++ order_by expressions`
together with `num_arguments`, `num_partition_by` and
`order_by_ascending`).  `field` and `groupedBy` embed `Field` and
`GroupedBy` of the absent `bq_abstract_syntax_tree.py` and are modelled
from the spec (§4.3 Field; §4.2 "pass-through read of the already-grouped
value"). -/
inductive EvaluatableNode where
  | value (v : Cell) (type_ : Option BQType)
  | field (path : List String)
  | selector (child : EvaluatableNode) (alias_ : Option String) (position : Option Nat)
  | groupedBy (child : EvaluatableNode)
  | binaryExpression (left : EvaluatableNode) (op : BinOp) (right : EvaluatableNode)
  | nonAggregatingFunctionCall (function_info : FuncInfo) (children : List EvaluatableNode)
  | aggregatingFunctionCall (function_info : FuncInfo) (children : List EvaluatableNode)
  | analyticFunctionCall (function_info : FuncInfo)
      (num_arguments num_partition_by : Nat) (order_by_ascending : List Bool)
      (children : List EvaluatableNode)
deriving Repr

/-- `EvaluatableNode.name()` — the inferred column name of an
expression.  Modelled from the spec (§4.3 Selector: "the child's
inferred name"): a field is named by its last path component. -/
def EvaluatableNode.inferredName : EvaluatableNode → Option String
  | .field path => path.getLast?
  | _ => none

mutual

/-- Python `str()` of a syntax-tree node, as interpolated into error
messages.  Modelled from the spec (§7: "Error messages must include the
offending expression"). -/
def EvaluatableNode.strexpr : EvaluatableNode → String
  | .value v _ => match v with
    | .str s => "'" ++ s ++ "'"
    | c => c.pyStr
  | .field path => String.intercalate "." path
  | .selector child _ _ => child.strexpr
  | .groupedBy child => child.strexpr
  | .binaryExpression l op r => l.strexpr ++ " " ++ op.symbol ++ " " ++ r.strexpr
  | .nonAggregatingFunctionCall f ch =>
      f.fname ++ "(" ++ String.intercalate ", " (strexprList ch) ++ ")"
  | .aggregatingFunctionCall f ch =>
      f.fname ++ "(" ++ String.intercalate ", " (strexprList ch) ++ ")"
  | .analyticFunctionCall f _ _ _ ch =>
      f.fname ++ "(" ++ String.intercalate ", " (strexprList ch) ++ ") OVER (...)"

def strexprList : List EvaluatableNode → List String
  | [] => []
  | c :: cs => c.strexpr :: strexprList cs

end

/-- `Selector.name()`: the alias if present, else the child's inferred
name, else the positional placeholder; accessing the name before the
position is populated is a `RuntimeError`. -/
def selectorName (child : EvaluatableNode) (alias_ : Option String)
    (position : Option Nat) : Except PyError String :=
  match alias_ with
  | some a => .ok a
  | none =>
    match position with
    | none => .error (.runtimeError
        ("Accessing name of Selector " ++ child.strexpr ++ " before position is populated."))
    | some pos => .ok ((child.inferredName).getD ("_f" ++ toString pos))

/-- From `bq_abstract_syntax_tree.EvaluationContext`.  Modelled from the
spec (§3, §4.2): the bound table (with its optional active grouping),
the selector names of the owning SELECT, the active GROUP BY canonical
paths, and the optional outer-context link for correlated lookups. -/
inductive EvaluationContext where
  | mk (table : TypedDataFrame) (grouping : Option (List String))
      (selector_names : List String) (group_by_paths : List (List String))
      (sub : Option EvaluationContext)

def EvaluationContext.table : EvaluationContext → TypedDataFrame
  | .mk t _ _ _ _ => t

def EvaluationContext.grouping : EvaluationContext → Option (List String)
  | .mk _ g _ _ _ => g

def EvaluationContext.selector_names : EvaluationContext → List String
  | .mk _ _ sn _ _ => sn

def EvaluationContext.group_by_paths : EvaluationContext → List (List String)
  | .mk _ _ _ gp _ => gp

def EvaluationContext.sub : EvaluationContext → Option EvaluationContext
  | .mk _ _ _ _ s => s

def EvaluationContext.setTable : EvaluationContext → TypedDataFrame → EvaluationContext
  | .mk _ g sn gp s, t => .mk t g sn gp s

def EvaluationContext.withSelectorNames :
    EvaluationContext → List String → EvaluationContext
  | .mk t g _ gp s, sn => .mk t g sn gp s

def EvaluationContext.withGrouping :
    EvaluationContext → List String → List (List String) → EvaluationContext
  | .mk t _ sn _ s, cols, paths => .mk t (some cols) sn paths s

/-- `add_subcontext`: record the non-owning outer-context link. -/
def EvaluationContext.add_subcontext :
    EvaluationContext → EvaluationContext → EvaluationContext
  | .mk t g sn gp _, outer => .mk t g sn gp (some outer)

def EvaluationContext.withGroupByPaths :
    EvaluationContext → List (List String) → EvaluationContext
  | .mk t g sn _ s, gp => .mk t g sn gp s

/-- A context over a plain table with nothing else set. -/
def EvaluationContext.ofTable (t : TypedDataFrame) : EvaluationContext :=
  .mk t none [] [] none

/-- From `bq_abstract_syntax_tree.EMPTY_CONTEXT`.  Modelled from the
spec (§4.5: LIMIT/OFFSET "must be constant-foldable expressions
evaluated in an empty context"): a context over a single anonymous row
with no columns, so a constant broadcast yields exactly one value. -/
def EMPTY_CONTEXT : EvaluationContext :=
  .ofTable ⟨⟨[], [([.int 0], [])]⟩, []⟩

/-- `String.splitOn "."` on the character list (kernel-evaluable). -/
def splitDotsChars : List Char → List (List Char)
  | [] => [[]]
  | c :: rest =>
    let r := splitDotsChars rest
    if c = '.' then [] :: r
    else
      match r with
      | [] => [[c]]
      | h :: t => (c :: h) :: t

/-- Split a dotted path into its components (`"a.b".split('.')`). -/
def splitDots (s : String) : List String :=
  (splitDotsChars s.data).map (fun cs => String.mk cs)

/-- ASCII upper-casing of one character (kernel-evaluable `str.upper`). -/
def charUpper (c : Char) : Char :=
  match c with
  | 'a' => 'A' | 'b' => 'B' | 'c' => 'C' | 'd' => 'D' | 'e' => 'E' | 'f' => 'F'
  | 'g' => 'G' | 'h' => 'H' | 'i' => 'I' | 'j' => 'J' | 'k' => 'K' | 'l' => 'L'
  | 'm' => 'M' | 'n' => 'N' | 'o' => 'O' | 'p' => 'P' | 'q' => 'Q' | 'r' => 'R'
  | 's' => 'S' | 't' => 'T' | 'u' => 'U' | 'v' => 'V' | 'w' => 'W' | 'x' => 'X'
  | 'y' => 'Y' | 'z' => 'Z' | c => c

/-- `str.upper()`. -/
def strUpper (s : String) : String := String.mk (s.data.map charUpper)

/-- `EvaluationContext.get_canonical_path`.  Modelled from the spec
(§4.2 `resolve`): a possibly-partial dotted path resolves to the unique
column whose dotted components it is a suffix of; a single-component
path may also name a SELECT alias; zero or several matches fail. -/
def EvaluationContext.get_canonical_path (ctx : EvaluationContext)
    (path : List String) : Except PyError (List String) :=
  match ctx.table.dataframe.cols.filter (fun col => path.isSuffixOf (splitDots col)) with
  | [col] => .ok (splitDots col)
  | [] =>
    match path with
    | [n] =>
      if n ∈ ctx.selector_names then .ok [n]
      else .error (.valueError ("Could not resolve path " ++ String.intercalate "." path))
    | _ => .error (.valueError ("Could not resolve path " ++ String.intercalate "." path))
  | _ => .error (.valueError ("Ambiguous path " ++ String.intercalate "." path))

/-- The declared type of the column named `cname`. -/
def TypedDataFrame.typeOfCol (t : TypedDataFrame) (cname : String) : Option BQType :=
  match t.dataframe.cols.findIdx? (fun c => c = cname) with
  | some i => (t.types.getD i none)
  | none => none

/-- Extract one column from a context's table, honouring the active
grouping (a grouped table yields a `SeriesGroupBy`). -/
def EvaluationContext.extractColumn (ctx : EvaluationContext) (cname : String) :
    SeriesOrGrouped :=
  match ctx.grouping with
  | none => .series
      ⟨ctx.table.dataframe.rows.map (fun p => (p.1, cellAt ctx.table.dataframe.cols cname p.2)),
       some cname⟩
  | some keys => .grouped
      ⟨(groupsOf ctx.table.dataframe keys).map
        (fun g => (g.1, g.2.map (fun p => (p.1, cellAt ctx.table.dataframe.cols cname p.2)))),
       some cname⟩

/-- `Field` evaluation: resolve in the local context first, then walk
outward through the subcontext links (spec §4.2 `add_subcontext`). -/
def evalField : EvaluationContext → List String → Except PyError TypedSeries
  | .mk t g sn gp sub, path =>
    let ctx : EvaluationContext := .mk t g sn gp sub
    match ctx.get_canonical_path path with
    | .ok canonical =>
      let cname := String.intercalate "." canonical
      .ok ⟨ctx.extractColumn cname, t.typeOfCol cname⟩
    | .error e =>
      match sub with
      | some outer => evalField outer path
      | none => .error e

/-- `_get_index`: the index labels of the context's table — the group
keys when a grouping is active. -/
def EvaluationContext.indexOf (ctx : EvaluationContext) : List Idx :=
  match ctx.grouping with
  | none => ctx.table.dataframe.rows.map (fun p => p.1)
  | some keys => (groupsOf ctx.table.dataframe keys).map (fun g => g.1)

/-! ## Expression evaluation -/

/-- Python's single-element unpacking `x, = series`. -/
def unpackSingleSeries (s : PSeries) : Except PyError Cell :=
  match s.rows with
  | [p] => .ok p.2
  | _ => .error (.valueError "unpacking a series that does not have exactly one element")

/-- Demand an ungrouped column. -/
def requireSeries (t : TypedSeries) (msg : String) : Except PyError PSeries :=
  match t.series with
  | .series s => .ok s
  | .grouped _ => .error (.typeError msg)

def cellSub : Cell → Cell → Cell
  | .int x, .int y => .int (x - y)
  | .int x, .float y => .float (x - y)
  | .float x, .int y => .float (x - y)
  | .float x, .float y => .float (x - y)
  | _, _ => .null

def opOfOrdering (op : BinOp) (o : Ordering) : Bool :=
  match op with
  | .gt => o = .gt
  | .lt => o = .lt
  | .ge => o ≠ .lt
  | .le => o ≠ .gt
  | .eqOp => o = .eq
  | .neOp => o ≠ .eq
  | _ => false

/-- One cell-level step of a binary expression.  Modelled from the spec
(`binary_expression.py` is absent; §4.3 describes the standard per-row
numeric/boolean transforms, `NaN` propagating as in pandas). -/
def applyBinOpCell (op : BinOp) (a b : Cell) : Cell :=
  match op with
  | .add => cellAdd a b
  | .sub => cellSub a b
  | _ =>
    match a.asRat?, b.asRat? with
    | some x, some y => .bool (opOfOrdering op (numCmp x y))
    | _, _ =>
      match a, b with
      | .str s, .str t => .bool (opOfOrdering op (cmpOfLO s.data t.data))
      | _, _ => .null

/-- The result type of a binary expression: comparisons are boolean,
arithmetic coerces the operand types. -/
def binOpResultType (op : BinOp) (t1 t2 : Option BQType) :
    Except PyError (Option BQType) :=
  match op with
  | .add => implicitly_coerce t1 t2
  | .sub => implicitly_coerce t1 t2
  | _ => .ok (some BQScalarType.boolean)

/-- pandas index alignment of a binary operation over two series: the
left index drives, labels absent on the right give `NaN`. -/
def seriesAlign2 (f : Cell → Cell → Cell) (a b : PSeries) : PSeries :=
  ⟨a.rows.map (fun p =>
    (p.1, match alookup p.1 b.rows with
      | some y => f p.2 y
      | none => .null)), none⟩

/-- `_NonAggregatingFunction.function` dispatch, on whole columns. -/
def FuncInfo.function (f : FuncInfo) (values : List PSeries) :
    Except PyError PSeries :=
  match f with
  | .mod =>
    match values with
    | [a, b] => .ok (seriesAlign2 (fun x y =>
        match x, y with
        | .int i, .int j => if j = 0 then .null else .int (i.emod j)
        | _, _ => .null) a b)
    | _ => .error (.valueError "MOD requires exactly two arguments")
  | .concat =>
    match values with
    | [] => .error (.typeError "reduce of empty sequence")
    | v :: rest => .ok (rest.foldl (fun acc s => seriesAlign2 cellAdd acc s) v)
  | .timestamp =>
    match values with
    | [v] => .ok v
    | _ => .error (.valueError "TIMESTAMP requires exactly one argument")
  | .current_timestamp =>
    match values with
    | [c] => .ok ⟨c.rows.map (fun p => (p.1, pd_Timestamp_now)), none⟩
    | _ => .error (.valueError "CURRENT_TIMESTAMP takes one synthetic argument")
  | .row_number =>
    match values with
    | [v] => .ok ⟨v.rows.mapIdx (fun j p => (p.1, Cell.int ((j : Int) + 1))), none⟩
    | _ => .error (.valueError "ROW_NUMBER takes one synthetic argument")
  | _ => .error (.typeError (f.fname ++ " is not a non-aggregating function"))

/-- One group's slice of `SeriesGroupBy.transform(lambda x: function([x]))`:
an aggregating function broadcasts its scalar over the group, a
non-aggregating one maps the group's sub-series. -/
def transformMembers (f : FuncInfo) (mem : List (Idx × Cell)) :
    Except PyError (List (Idx × Cell)) :=
  if f.is_aggregating then
    .ok (mem.map (fun p => (p.1, f.aggregating_function (mem.map (fun q => q.2)))))
  else do
    let out ← f.function [⟨mem, none⟩]
    .ok out.rows

/-- `_AnalyticFunctionCall._evaluate_node`: build a fresh context from
the evaluated children, sort by the ORDER BY columns, group by the
PARTITION BY columns (or by a synthetic `__constant__` column when
absent), and transform the argument column per group, keeping one value
per original row. -/
def analyticEvaluate (f : FuncInfo) (num_arguments num_partition_by : Nat)
    (order_by_ascending : List Bool) (children : List (PSeries × Option BQType)) :
    Except PyError TypedSeries := do
  let colnames := (List.range children.length).map (fun j => "_col" ++ toString j)
  let index : List Idx := match children.head? with
    | some c => c.1.rows.map (fun p => p.1)
    | none => []
  let df0 : PDataFrame :=
    ⟨colnames, index.map (fun i => (i, children.map (fun c => (alookup i c.1.rows).getD .null)))⟩
  let argPaths := colnames.take num_arguments
  let partitionPaths := (colnames.drop num_arguments).take num_partition_by
  let orderPaths := colnames.drop (num_arguments + num_partition_by)
  let df1 := if orderPaths.isEmpty then df0
    else sort_values df0 (orderPaths.zip order_by_ascending)
  let dfk : PDataFrame × List String :=
    if partitionPaths.isEmpty then
      (⟨df1.cols ++ ["__constant__"], df1.rows.map (fun p => (p.1, p.2 ++ [Cell.int 100]))⟩,
       ["__constant__"])
    else (df1, partitionPaths)
  let argCol ← match argPaths with
    | [a] => Except.ok a
    | _ => Except.error (.valueError
        "unpacking evaluated arguments that do not have exactly one element")
  let rtype ← f.compute_result_type ((children.take num_arguments).map (fun c => c.2))
  let perGroup ← exceptList ((groupsOf dfk.1 dfk.2).map (fun g =>
    transformMembers f (g.2.map (fun p => (p.1, cellAt dfk.1.cols argCol p.2)))))
  let flat := perGroup.flatten
  .ok ⟨.series ⟨dfk.1.rows.map (fun p => (p.1, (alookup p.1 flat).getD .null)), none⟩, rtype⟩

mutual

/-- `EvaluatableNode.evaluate`: recursively evaluate children against
the context, then combine (`evaluatable_node.py`; the choice between
`_evaluate_node` and `_evaluate_node_in_group_by` follows the shape of
the evaluated child, per spec §4.4). -/
def evalNode : EvaluatableNode → EvaluationContext → Except PyError TypedSeries
  | .value v t, ctx => .ok ⟨.series ⟨ctx.indexOf.map (fun i => (i, v)), none⟩, t⟩
  | .field path, ctx => evalField ctx path
  | .selector child alias_ position, ctx => do
    let ts ← evalNode child ctx
    let nm ← selectorName child alias_ position
    .ok ⟨(match ts.series with
      | .series s => .series ⟨s.rows, some nm⟩
      | .grouped g => .grouped ⟨g.groups, some nm⟩), ts.type_⟩
  | .groupedBy child, ctx => do
    let ts ← evalNode child ctx
    match ts.series with
    | .grouped g => .ok ⟨.series
        ⟨g.groups.map (fun p => (p.1, ((p.2.head?).map (fun q => q.2)).getD .null)), g.name⟩,
        ts.type_⟩
    | .series s => .ok ⟨.series s, ts.type_⟩
  | .binaryExpression l op r, ctx => do
    let tl ← evalNode l ctx
    let tr ← evalNode r ctx
    match tl.series, tr.series with
    | .series sl, .series sr => do
      let t ← binOpResultType op tl.type_ tr.type_
      .ok ⟨.series (seriesAlign2 (applyBinOpCell op) sl sr), t⟩
    | _, _ => .error (.typeError
        "binary operation on grouped operands is outside the modelled fragment")
  | .nonAggregatingFunctionCall f ch, ctx => do
    let ts ← evalNodeList ch ctx
    let plains ← exceptList (ts.map (fun t =>
      match t.series with
      | .series s => Except.ok s
      | .grouped _ => Except.error (.typeError
          "non-aggregating function on grouped operands is outside the modelled fragment")))
    let rtype ← f.compute_result_type (ts.map (fun t => t.type_))
    let out ← f.function plains
    .ok ⟨.series out, rtype⟩
  | .aggregatingFunctionCall f ch, ctx => do
    let ts ← evalNodeList ch ctx
    let rtype ← f.compute_result_type (ts.map (fun t => t.type_))
    match ts with
    | [t] =>
      match t.series with
      | .series s => .ok ⟨.series
          ⟨[([Cell.int 0], f.aggregating_function (s.rows.map (fun p => p.2)))], none⟩, rtype⟩
      | .grouped g => .ok ⟨.series
          ⟨g.groups.map (fun p => (p.1, f.aggregating_function (p.2.map (fun q => q.2)))), none⟩,
          rtype⟩
    | _ => .error (.valueError "unpacking argument values that do not have exactly one element")
  | .analyticFunctionCall f na np ascs ch, ctx => do
    let ts ← evalNodeList ch ctx
    let pairs ← exceptList (ts.map (fun t =>
      match t.series with
      | .series s => Except.ok (s, t.type_)
      | .grouped _ => Except.error (.typeError
          "analytic function over grouped operands is outside the modelled fragment")))
    analyticEvaluate f na np ascs pairs

def evalNodeList : List EvaluatableNode → EvaluationContext → Except PyError (List TypedSeries)
  | [], _ => .ok []
  | c :: cs, ctx => do
    let t ← evalNode c ctx
    let rest ← evalNodeList cs ctx
    .ok (t :: rest)

end

mutual

/-- `mark_grouped_by`: rewrite an expression once grouping is active.
From the source for `Selector` and `Value`; for the node types living in
the absent `bq_abstract_syntax_tree.py` (`Field`,
`EvaluatableNodeWithChildren`, `EvaluatableNodeThatAggregatesOrGroups`)
modelled from the spec §4.2: a subexpression whose canonical path is a
grouping path becomes a pass-through `GroupedBy` read, aggregating nodes
stay put, other nodes rewrite their children. -/
def EvaluatableNode.mark_grouped_by :
    EvaluatableNode → List (List String) → EvaluationContext → EvaluatableNode
  | .value v t, _, _ => .value v t
  | .field path, paths, ctx =>
    (match ctx.get_canonical_path path with
    | .ok cp => if cp ∈ paths then .groupedBy (.field path) else .field path
    | .error _ => .field path)
  | .selector child alias_ position, paths, ctx =>
    (match selectorName child alias_ position with
    | .ok nm =>
      (match ctx.get_canonical_path [nm] with
      | .ok cp =>
        if cp ∈ paths then .groupedBy (.selector child alias_ position)
        else .selector (child.mark_grouped_by paths ctx) alias_ position
      | .error _ => .selector (child.mark_grouped_by paths ctx) alias_ position)
    | .error _ => .selector (child.mark_grouped_by paths ctx) alias_ position)
  | .groupedBy child, _, _ => .groupedBy child
  | .binaryExpression l op r, paths, ctx =>
    .binaryExpression (l.mark_grouped_by paths ctx) op (r.mark_grouped_by paths ctx)
  | .nonAggregatingFunctionCall f ch, paths, ctx =>
    .nonAggregatingFunctionCall f (markList ch paths ctx)
  | .aggregatingFunctionCall f ch, _, _ => .aggregatingFunctionCall f ch
  | .analyticFunctionCall f na np ascs ch, _, _ => .analyticFunctionCall f na np ascs ch

def markList : List EvaluatableNode → List (List String) → EvaluationContext →
    List EvaluatableNode
  | [], _, _ => []
  | c :: cs, paths, ctx => c.mark_grouped_by paths ctx :: markList cs paths ctx

end

/-- `EvaluationContext.do_group_by`.  Modelled from the spec (§4.2):
each GROUP BY expression must resolve to a canonical path; the table is
partitioned by the resolved grouping columns; every SELECT field is then
rewritten with `mark_grouped_by`. -/
def EvaluationContext.do_group_by (ctx : EvaluationContext)
    (fields : List EvaluatableNode) (group_by : List EvaluatableNode) :
    Except PyError (List EvaluatableNode × EvaluationContext) := do
  let paths ← exceptList (group_by.map (fun g =>
    match g with
    | .field p => ctx.get_canonical_path p
    | g => .error (.valueError ("Invalid group by expression " ++ g.strexpr))))
  let colnames := paths.map (fun p => String.intercalate "." p)
  let ctx' := ctx.withGrouping colnames paths
  let fields' := fields.map (fun f => f.mark_grouped_by paths ctx')
  .ok (fields', ctx')

/-- `dataframe_node._evaluate_fields_as_dataframe`: evaluate every
field; a result still shaped `SeriesGroupBy` means an expression that
was never aggregated or grouped (hard error); otherwise concatenate the
evaluated columns (`pd.concat(axis=1)`, aligned on the common index). -/
def _evaluate_fields_as_dataframe (fields : List EvaluatableNode)
    (ctx : EvaluationContext) : Except PyError TypedDataFrame := do
  let evaluated ← evalNodeList fields ctx
  match (fields.zip evaluated).find? (fun p =>
      match p.2.series with | .grouped _ => true | _ => false) with
  | some p => .error (.valueError
      ("selecting expression " ++ p.1.strexpr ++ " that is not aggregated or grouped by"))
  | none =>
    let types := evaluated.map (fun t => t.type_)
    let index : List Idx := match evaluated.head? with
      | some t => match t.series with
        | .series s => s.rows.map (fun p => p.1)
        | .grouped _ => []
      | none => []
    let cols := (evaluated.zip (List.range evaluated.length)).map (fun p =>
      match p.1.series with
      | .series s => s.name.getD (toString p.2)
      | .grouped g => g.name.getD (toString p.2))
    let rows := index.map (fun i => (i, evaluated.map (fun t =>
      match t.series with
      | .series s => (alookup i s.rows).getD .null
      | .grouped _ => .null)))
    .ok ⟨⟨cols, rows⟩, types⟩

/-! ## Dataframe nodes (`dataframe_node.py`) -/

/-- Python `str()` of a tuple of strings. -/
def pyTupleStr (path : List String) : String :=
  "(" ++ String.intercalate ", " (path.map (fun s => "'" ++ s ++ "'"))
    ++ (if path.length = 1 then ",)" else ")")

/-- Python `str()` of a list of strings. -/
def pyListStr (xs : List String) : String :=
  "[" ++ String.intercalate ", " (xs.map (fun s => "'" ++ s ++ "'")) ++ "]"

def DEFAULT_TABLE_NAME : Option String := none

/-- `TableReference.get_dataframe`: resolve a 1-3 part path against the
catalog (single-part paths are first split on dots), qualify missing
leading parts when the catalog is unambiguous, and look the table up.
The resolved path is returned as the node's new `path` field, modelling
the assignment to `self.path`. -/
def TableReference.get_dataframe (datasets : Datasets) (path0 : List String) :
    Except PyError ((TypedDataFrame × Option String) × List String) := do
  let path1 := if path0.length = 1 then splitDots (path0.headD "") else path0
  let path ←
    if path1.length < 3 then
      match datasets with
      | [(project, pds)] =>
        if path1.length = 1 then
          match pds with
          | [(dataset, _)] => Except.ok ([project, dataset] ++ path1)
          | _ => Except.error (.valueError
              ("Non-fully-qualified table " ++ pyTupleStr path1
                ++ " with multiple possible datasets "
                ++ pyListStr ((pds.map (fun p => p.1)).insertionSort (· ≤ ·))))
        else Except.ok (project :: path1)
      | _ => Except.error (.valueError
          ("Non-fully-qualified table " ++ pyTupleStr path1
            ++ " with multiple possible projects "
            ++ pyListStr ((datasets.map (fun p => p.1)).insertionSort (· ≤ ·))))
    else Except.ok path1
  match path with
  | [project_id, dataset_id, table_id] => do
    let pds ← match alookup project_id datasets with
      | some x => Except.ok x
      | none => Except.error (.keyError project_id)
    let dd ← match alookup dataset_id pds with
      | some x => Except.ok x
      | none => Except.error (.keyError dataset_id)
    let t ← match alookup table_id dd with
      | some x => Except.ok x
      | none => Except.error (.keyError table_id)
    .ok ((t, some table_id), path)
  | _ => .error (.valueError ("invalid table path " ++ pyTupleStr path))

/-- From `join.DataSource` (external collaborator, spec §6): a FROM
clause consisting of one table reference and an optional alias (the
snapshot's tests construct `DataSource((TableReference(...), EMPTY_NODE),
[])`; joins are outside the modelled fragment). -/
structure DataSource where
  table_path : List String
  alias_ : Option String
deriving Repr

/-- `join.DataSource.create_context`.  Modelled from the spec (§6): the
external FROM resolver binds the referenced table's columns into a fresh
context under qualified `table.column` names (see
`test_query_expression`, where column `a` surfaces as `my_table.a`). -/
def DataSource.create_context (ds : DataSource) (datasets : Datasets) :
    Except PyError EvaluationContext := do
  let ((tdf, name), _) ← TableReference.get_dataframe datasets ds.table_path
  let nm := match ds.alias_ with
    | some a => some a
    | none => name
  let renamed : TypedDataFrame :=
    match nm with
    | some n => ⟨⟨tdf.dataframe.cols.map (fun c => n ++ "." ++ c), tdf.dataframe.rows⟩, tdf.types⟩
    | none => tdf
  .ok (.ofTable renamed)

/-- `EvaluationContext.add_table_from_dataframe`.  Modelled from the
spec (§4.2 `add_table`): registers the table's columns, qualified by the
table name when one is given. -/
def add_table_from_dataframe (tdf : TypedDataFrame) (name : Option String) :
    TypedDataFrame :=
  match name with
  | some n => ⟨⟨tdf.dataframe.cols.map (fun c => n ++ "." ++ c), tdf.dataframe.rows⟩, tdf.types⟩
  | none => tdf

/-- `QueryExpression._order_by`: resolve every ORDER BY key — a field
path through the context, or a positional 1-based integer literal
indexing the base query's output columns (with Python's negative-index
wrap-around; a boolean literal counts as an integer because Python
`bool` is a subclass of `int`), any other literal being an error — with
`DESC` giving a descending key, and sort the rows. -/
def resolve_order_keys (order_by : List (EvaluatableNode × Option String))
    (t : TypedDataFrame) : Except PyError (List (String × Bool)) :=
  exceptList (order_by.map (fun fd => do
    let fname ← match fd.1 with
      | .field p => do
        let cp ← (EvaluationContext.ofTable t).get_canonical_path p
        Except.ok (String.intercalate "." cp)
      | .value v _ =>
        (match v.asPyInt with
        | some n =>
          let i : Int := n - 1
          let j : Int := if i < 0 then (t.dataframe.cols.length : Int) + i else i
          if h : 0 ≤ j ∧ j.toNat < t.dataframe.cols.length then
            Except.ok (t.dataframe.cols.get ⟨j.toNat, h.2⟩)
          else Except.error (.indexError "list index out of range")
        | none => Except.error (.valueError
            ("Attempt to order by a literal non-integer constant " ++ v.pyStr)))
      | fld => Except.error (.valueError ("Invalid field specification " ++ fld.strexpr))
    let ascending := decide (¬ fd.2 = some "DESC")
    Except.ok (fname, ascending)))

def order_by_impl (order_by : List (EvaluatableNode × Option String))
    (typed_dataframe : TypedDataFrame) (table_name : Option String) :
    Except PyError TypedDataFrame := do
  let t := add_table_from_dataframe typed_dataframe table_name
  let keys ← resolve_order_keys order_by t
  .ok ⟨sort_values t.dataframe keys, t.types⟩

/-- `QueryExpression._limit`: evaluate LIMIT (and OFFSET, default 0) as
constants in the empty context and slice the rows. -/
def limit_impl (limit : EvaluatableNode × Option EvaluatableNode)
    (typed_dataframe : TypedDataFrame) : Except PyError TypedDataFrame := do
  let lv ← evalNode limit.1 EMPTY_CONTEXT
  let ls ← requireSeries lv "LIMIT must be a constant"
  let lcell ← unpackSingleSeries ls
  let ocell ← match limit.2 with
    | some oe => do
      let ov ← evalNode oe EMPTY_CONTEXT
      let os ← requireSeries ov "OFFSET must be a constant"
      unpackSingleSeries os
    | none => Except.ok (Cell.int 0)
  match lcell, ocell with
  | .int li, .int oi => .ok ⟨⟨typed_dataframe.dataframe.cols,
      (typed_dataframe.dataframe.rows.drop oi.toNat).take li.toNat⟩, typed_dataframe.types⟩
  | _, _ => .error (.typeError "LIMIT/OFFSET must be integers")

/-- Steps 1-2 of `Select.get_dataframe` (source lines 271-280): build
the context from the FROM clause (or a fresh context when absent),
attach the outer context of a correlated subquery, and record the
selector names. -/
def Select.setup_context (datasets : Datasets) (fields0 : List EvaluatableNode)
    (from_ : Option DataSource) (outer_context : Option EvaluationContext) :
    Except PyError EvaluationContext := do
  let ctxA ← match from_ with
    | none => Except.ok (EvaluationContext.ofTable ⟨⟨[], [([.int 0], [])]⟩, []⟩)
    | some ds => ds.create_context datasets
  let ctxB := match outer_context with
    | some oc => ctxA.add_subcontext oc
    | none => ctxA
  let selnames ← exceptList (fields0.filterMap (fun f =>
    match f with
    | .selector c a p => some (selectorName c a p)
    | _ => none))
  .ok (ctxB.withSelectorNames selnames)

/-- `Select.get_dataframe`: DISTINCT check, FROM context (fresh when no
FROM), optional outer context, selector names, WHERE filter, GROUP BY
rewrite, field evaluation, HAVING filter.  Returns the rewritten field
list as the node's new `fields`, modelling the assignment
`self.fields = context.do_group_by(...)`. -/
def Select.get_dataframe (datasets : Datasets) (modifier : Option String)
    (fields0 : List EvaluatableNode) (from_ : Option DataSource)
    (where_ : Option EvaluatableNode) (group_by : Option (List EvaluatableNode))
    (having : Option EvaluatableNode) (outer_context : Option EvaluationContext) :
    Except PyError ((TypedDataFrame × Option String) × List EvaluatableNode) :=
  if modifier = some "DISTINCT" then
    .error (.notImplementedError "SELECT DISTINCT not implemented")
  else do
    let ctx1 ← Select.setup_context datasets fields0 from_ outer_context
    let ctx2 ← match where_ with
      | none => Except.ok ctx1
      | some w => do
        let keep ← evalNode w ctx1
        let mask ← requireSeries keep "WHERE on a grouped context is outside the modelled fragment"
        Except.ok (ctx1.setTable
          ⟨⟨ctx1.table.dataframe.cols, locBool ctx1.table.dataframe.rows mask.rows⟩,
           ctx1.table.types⟩)
    let fc ← match group_by with
      | none => Except.ok (fields0, ctx2)
      | some gb => ctx2.do_group_by fields0 gb
    let result ← _evaluate_fields_as_dataframe fc.1 fc.2
    let result2 ← match having with
      | none => Except.ok result
      | some h => do
        let hctx := ((EvaluationContext.ofTable
            (add_table_from_dataframe result none)).add_subcontext fc.2).withGroupByPaths
            fc.2.group_by_paths
        let h' := h.mark_grouped_by fc.2.group_by_paths hctx
        let keep ← evalNode h' hctx
        let mask ← requireSeries keep "HAVING evaluated to a grouped column"
        Except.ok (⟨⟨result.dataframe.cols, locBool result.dataframe.rows mask.rows⟩,
          result.types⟩ : TypedDataFrame)
    .ok ((result2, DEFAULT_TABLE_NAME), fc.1)

/-- The dataframe-producing AST (`dataframe_node.py`). -/
inductive DataframeNode where
  | queryExpression (with_expression : Option (List (String × DataframeNode)))
      (base_query : DataframeNode)
      (order_by : Option (List (EvaluatableNode × Option String)))
      (limit : Option (EvaluatableNode × Option EvaluatableNode))
  | setOperation (left_query : DataframeNode) (set_operator : String)
      (right_query : DataframeNode)
  | select (modifier : Option String) (fields : List EvaluatableNode)
      (from_ : Option DataSource) (where_ : Option EvaluatableNode)
      (group_by : Option (List EvaluatableNode)) (having : Option EvaluatableNode)
  | tableReference (path : List String)

/-- `DataframeNode.get_dataframe`.  The returned node is the state of
`self` after the call — the source mutates `self.path` in
`TableReference.get_dataframe` and `self.fields` in
`Select.get_dataframe`, and this embedding passes that state
explicitly. -/
def DataframeNode.get_dataframe (datasets : Datasets) :
    DataframeNode → Except PyError ((TypedDataFrame × Option String) × DataframeNode)
  | .queryExpression we base ob lim =>
    (match we with
    | some _ => .error (.notImplementedError "WITH expressions are not implemented yet.")
    | none => do
      let r ← DataframeNode.get_dataframe datasets base
      let tdf1 ← match ob with
        | none => Except.ok r.1.1
        | some fields => order_by_impl fields r.1.1 r.1.2
      let tdf2 ← match lim with
        | none => Except.ok tdf1
        | some l => limit_impl l tdf1
      .ok ((tdf2, DEFAULT_TABLE_NAME), .queryExpression we r.2 ob lim))
  | .setOperation l op r => do
    let lr ← DataframeNode.get_dataframe datasets l
    let rr ← DataframeNode.get_dataframe datasets r
    let num_left_columns := lr.1.1.types.length
    let num_right_columns := rr.1.1.types.length
    if num_left_columns ≠ num_right_columns then
      .error (.valueError ("Queries in UNION ALL have mismatched column count: "
        ++ toString num_left_columns ++ " vs " ++ toString num_right_columns))
    else do
      let combined_types ← exceptList ((lr.1.1.types.zip rr.1.1.types).map
        (fun p => implicitly_coerce p.1 p.2))
      if op = "UNION_ALL" then
        .ok ((⟨pd_concat lr.1.1.dataframe rr.1.1.dataframe, combined_types⟩,
          DEFAULT_TABLE_NAME), .setOperation lr.2 op rr.2)
      else .error (.notImplementedError ("set operation " ++ op ++ " not implemented"))
  | .select m f fr w g h => do
    let r ← Select.get_dataframe datasets m f fr w g h none
    .ok (r.1, .select m r.2 fr w g h)
  | .tableReference p => do
    let r ← TableReference.get_dataframe datasets p
    .ok (r.1, .tableReference r.2)

/-- `FunctionCall.create`: upper-case the name and look it up in
`_FUNCTION_MAP` (unknown names are a `NotImplementedError` at
construction time); aggregating functions demand exactly one argument;
an OVER clause yields an analytic call (with `ROW_NUMBER` given its
synthetic constant argument), otherwise the aggregating or plain call is
built (a plain call with no arguments receives the synthetic constant
argument from `_NonAggregatingFunctionCall.__init__`). -/
def FunctionCall.create (function_name : String)
    (expression : Option (List EvaluatableNode))
    (over_clause : Option (Option (List EvaluatableNode) ×
      Option (List (EvaluatableNode × Option String)))) :
    Except PyError EvaluatableNode :=
  let fn := strUpper function_name
  match alookup fn FUNCTION_MAP with
  | none => .error (.notImplementedError ("Function " ++ fn ++ " not implemented"))
  | some function_info =>
    if function_info.is_aggregating ∧
        (match expression with | none => true | some es => decide (es.length ≠ 1)) = true then
      .error (.notImplementedError "Aggregating functions are only supported with 1 argument")
    else
      match over_clause with
      | some over =>
        let partition_by := over.1.getD []
        let order_by := over.2.getD []
        let order_by_ascending := order_by.map (fun p =>
          match p.2 with
          | none => true
          | some d => decide (strUpper d ≠ "DESC"))
        let arguments0 := expression.getD []
        let arguments := if function_info.fname = "ROW_NUMBER"
          then [.value (.int 1) (some .integer)] else arguments0
        .ok (.analyticFunctionCall function_info arguments.length partition_by.length
          order_by_ascending (arguments ++ partition_by ++ order_by.map (fun p => p.1)))
      | none =>
        if function_info.is_aggregating then
          .ok (.aggregatingFunctionCall function_info (expression.getD []))
        else
          .ok (.nonAggregatingFunctionCall function_info
            (match expression with
             | some es => es
             | none => [.value (.int 1) (some .integer)]))

/-- The per-grouper step of `Select.__init__`: an integer literal `N`
becomes a one-element field path naming `self.fields[N - 1]` (Python
indexing, so negative values wrap once), a non-integer literal is a
`ValueError`, and any other grouper passes through unchanged. -/
def Select.rewrite_grouper (fields : List EvaluatableNode)
    (grouper : EvaluatableNode) : Except PyError EvaluatableNode :=
  match grouper with
  | .value v _ =>
    (match v.asPyInt with
     | some n => do
       let i : Int := n - 1
       let j : Int := if i < 0 then (fields.length : Int) + i else i
       if h : 0 ≤ j ∧ j.toNat < fields.length then do
         let nm ← match fields.get ⟨j.toNat, h.2⟩ with
           | .selector c a p => selectorName c a p
           | f => Except.error (.typeError
               ("field " ++ f.strexpr ++ " has no name method"))
         Except.ok (EvaluatableNode.field [nm])
       else Except.error (.indexError "list index out of range")
     | none => Except.error (.valueError
         ("Attempt to group by a literal non-integer constant " ++ v.pyStr)))
  | g => Except.ok g

/-- The position assignment of `Select.__init__` (`field.position = i + 1`). -/
def Select.position_fields (fields0 : List EvaluatableNode) : List EvaluatableNode :=
  fields0.mapIdx (fun i f =>
    match f with
    | .selector c a _ => .selector c a (some (i + 1))
    | f => f)

/-- `Select.__init__`: assign 1-based positions to the selectors and
rewrite each GROUP BY grouper with `Select.rewrite_grouper`. -/
def Select.init (modifier : Option String) (fields0 : List EvaluatableNode)
    (from_ : Option DataSource) (where_ : Option EvaluatableNode)
    (group_by : Option (List EvaluatableNode)) (having : Option EvaluatableNode) :
    Except PyError DataframeNode := do
  let fields := Select.position_fields fields0
  let group_by' ← match group_by with
    | none => Except.ok none
    | some gb => do
      let gbs ← exceptList (gb.map (Select.rewrite_grouper fields))
      Except.ok (some gbs)
  .ok (.select modifier fields from_ where_ group_by' having)

/-! ## Fixtures: concrete catalogs and queries used by the theorems -/

/-- A table with integer columns `a` and `b` (rows (4,5), (1,5), (3,6),
(9,7)). -/
def havingTable : TypedDataFrame :=
  ⟨⟨["a", "b"],
    [([.int 0], [.int 4, .int 5]), ([.int 1], [.int 1, .int 5]),
     ([.int 2], [.int 3, .int 6]), ([.int 3], [.int 9, .int 7])]⟩,
   [some .integer, some .integer]⟩

def havingDatasets : Datasets := [("p", [("d", [("my_table", havingTable)])])]

/-- `SELECT b FROM my_table GROUP BY b HAVING SUM(a) > 4`. -/
def havingSelect : DataframeNode :=
  .select none [.selector (.field ["b"]) none (some 1)] (some ⟨["my_table"], none⟩) none
    (some [.field ["b"]])
    (some (.binaryExpression (.aggregatingFunctionCall .sum [.field ["a"]]) .gt
      (.value (.int 4) (some .integer))))

/-- One-column one-row tables whose column names differ (`a` vs `b`). -/
def unionTableA : TypedDataFrame := ⟨⟨["a"], [([.int 0], [.int 1])]⟩, [some .integer]⟩

def unionTableB : TypedDataFrame := ⟨⟨["b"], [([.int 0], [.int 2])]⟩, [some .integer]⟩

def unionDatasets : Datasets :=
  [("p", [("d", [("t1", unionTableA), ("t2", unionTableB)])])]

/-- `SELECT * FROM t1 UNION ALL SELECT * FROM t2` via bare table
references: equal column counts, differing column names. -/
def unionMismatchNode : DataframeNode :=
  .setOperation (.tableReference ["p", "d", "t1"]) "UNION_ALL"
    (.tableReference ["p", "d", "t2"])

/-! ## Helper lemmas -/

theorem exceptBind_ok {ε α β : Type} (a : α) (f : α → Except ε β) :
    (Except.ok a : Except ε α) >>= f = f a := rfl

theorem exceptBind_error {ε α β : Type} (e : ε) (f : α → Except ε β) :
    (Except.error e : Except ε α) >>= f = .error e := rfl

theorem exceptMap_ok {ε α β : Type} (a : α) (f : α → β) :
    (Except.ok a : Except ε α).map f = .ok (f a) := rfl

/-! ## Claim theorems -/

/-- C5: for a grouped SELECT with HAVING, the HAVING expression is
evaluated in a fresh context seeded with the result table and linked to
the grouped context, so it may reference an aggregate absent from the
SELECT list: `SELECT b FROM my_table GROUP BY b HAVING SUM(a) > 4` keeps
exactly the groups whose sum exceeds 4 (b = 5 with sum 5 and b = 7 with
sum 9; b = 6 with sum 3 is filtered out), and `SUM(a)` does not appear
among the result columns. -/
theorem having_filters_by_unselected_aggregate :
    (DataframeNode.get_dataframe havingDatasets havingSelect).map (fun r => r.1) =
      .ok (⟨⟨["b"], [([.int 5], [.int 5]), ([.int 7], [.int 7])]⟩, [some .integer]⟩, none) := by
  decide

/-- C4: evaluation mutates the AST node, contradicting the spec's
"AST nodes are immutable": `TableReference.get_dataframe` overwrites
`self.path` with the fully-qualified path, and `Select.get_dataframe`
overwrites `self.fields` with the group-by-rewritten field list.  The
embedding passes the node's state explicitly, and at these concrete
inputs the node that comes back differs from the node that went in. -/
theorem evaluation_mutates_the_node :
    ((DataframeNode.get_dataframe havingDatasets (.tableReference ["my_table"])).map
        (fun r => r.2) = .ok (.tableReference ["p", "d", "my_table"]))
    ∧ (DataframeNode.tableReference ["p", "d", "my_table"] ≠ .tableReference ["my_table"])
    ∧ ((DataframeNode.get_dataframe havingDatasets havingSelect).map (fun r => r.2) =
        .ok (.select none [.groupedBy (.selector (.field ["b"]) none (some 1))]
          (some ⟨["my_table"], none⟩) none (some [.field ["b"]])
          (some (.binaryExpression (.aggregatingFunctionCall .sum [.field ["a"]]) .gt
            (.value (.int 4) (some .integer))))))
    ∧ (DataframeNode.select none [.groupedBy (.selector (.field ["b"]) none (some 1))]
          (some ⟨["my_table"], none⟩) none (some [.field ["b"]])
          (some (.binaryExpression (.aggregatingFunctionCall .sum [.field ["a"]]) .gt
            (.value (.int 4) (some .integer)))) ≠ havingSelect) := by
  refine ⟨rfl, ?_, rfl, ?_⟩
  · intro h
    injection h with h1
    simp at h1
  · intro h
    unfold havingSelect at h
    injection h with _ h2
    simp at h2

/-- C1 counterexample: with equal column counts but differing column
names (`a` vs `b`), UNION ALL does **not** return the left rows followed
by the right rows: `pd.concat` aligns by name, so the result rows are
null-padded over the union of the column sets. -/
theorem union_all_not_positional_counterexample :
    ((DataframeNode.get_dataframe unionDatasets unionMismatchNode).map
        (fun r => r.1.1.dataframe.rows) =
      .ok [([.int 0], [.int 1, .null]), ([.int 0], [.null, .int 2])])
    ∧ ((DataframeNode.get_dataframe unionDatasets unionMismatchNode).map
        (fun r => r.1.1.dataframe.rows) ≠
      .ok (unionTableA.dataframe.rows ++ unionTableB.dataframe.rows)) := by
  decide

/-- C1 (amended): UNION ALL evaluates both sides independently; when the
column counts differ it fails with the column-count-mismatch error
naming both counts (whichever side is larger); when the counts agree,
each column pair's type is implicitly coerced, **and provided both sides
produce the identical ordered list of column names**, the result is the
coerced types over all left rows followed by all right rows, in order. -/
theorem union_all_evaluation (datasets : Datasets) (l r l' r' : DataframeNode)
    (ldf rdf : TypedDataFrame) (lnm rnm : Option String)
    (hl : DataframeNode.get_dataframe datasets l = .ok ((ldf, lnm), l'))
    (hr : DataframeNode.get_dataframe datasets r = .ok ((rdf, rnm), r')) :
    (ldf.types.length ≠ rdf.types.length →
      DataframeNode.get_dataframe datasets (.setOperation l "UNION_ALL" r) =
        .error (.valueError ("Queries in UNION ALL have mismatched column count: "
          ++ toString ldf.types.length ++ " vs " ++ toString rdf.types.length)))
    ∧ (∀ combined_types : List (Option BQType),
        ldf.types.length = rdf.types.length →
        exceptList ((ldf.types.zip rdf.types).map (fun p => implicitly_coerce p.1 p.2))
          = .ok combined_types →
        ldf.dataframe.cols = rdf.dataframe.cols →
        ldf.dataframe.cols.Nodup →
        (∀ p ∈ ldf.dataframe.rows, (p : Idx × List Cell).2.length = ldf.dataframe.cols.length) →
        (∀ p ∈ rdf.dataframe.rows, (p : Idx × List Cell).2.length = ldf.dataframe.cols.length) →
        DataframeNode.get_dataframe datasets (.setOperation l "UNION_ALL" r) =
          .ok ((⟨⟨ldf.dataframe.cols, ldf.dataframe.rows ++ rdf.dataframe.rows⟩,
            combined_types⟩, none), .setOperation l' "UNION_ALL" r')) := by
  constructor
  · intro hne
    simp only [DataframeNode.get_dataframe, hl, hr, exceptBind_ok]
    rw [if_pos hne]
  · intro combined_types hlen hco hcols hnd hllen hrlen
    simp only [DataframeNode.get_dataframe, hl, hr, exceptBind_ok]
    rw [if_neg (fun h => h hlen)]
    simp only [hco, exceptBind_ok, if_true]
    rw [pd_concat_same_cols ldf.dataframe rdf.dataframe hcols hnd hllen hrlen]
    rfl

/-- C1 witness: both sides the same one-column table; the union is the
two rows stacked. -/
theorem union_all_evaluation_witness :
    DataframeNode.get_dataframe unionDatasets
        (.setOperation (.tableReference ["p", "d", "t1"]) "UNION_ALL"
          (.tableReference ["p", "d", "t1"])) =
      .ok ((⟨⟨["a"], [([.int 0], [.int 1]), ([.int 0], [.int 1])]⟩, [some .integer]⟩, none),
        .setOperation (.tableReference ["p", "d", "t1"]) "UNION_ALL"
          (.tableReference ["p", "d", "t1"])) :=
  (union_all_evaluation unionDatasets (.tableReference ["p", "d", "t1"])
      (.tableReference ["p", "d", "t1"]) (.tableReference ["p", "d", "t1"])
      (.tableReference ["p", "d", "t1"]) unionTableA unionTableA
      (some "t1") (some "t1") rfl rfl).2
    [some .integer] rfl rfl rfl (by decide) (by decide) (by decide)

/-- C10: UNION ALL aligns the two sides' columns **by name**, not by
position.  (i) When both sides produce the identical ordered column-name
list, the result is the positional left-then-right row concatenation.
(ii) At a concrete pair with equal column counts but differing names,
the result carries the union of both name sets (`a` and `b`,
null-padded), so (iii) its number of data columns exceeds its number of
declared types, breaking the one-type-per-column invariant. -/
theorem union_all_aligns_columns_by_name :
    (∀ (datasets : Datasets) (l r l' r' : DataframeNode) (ldf rdf : TypedDataFrame)
        (lnm rnm : Option String) (combined_types : List (Option BQType)),
      DataframeNode.get_dataframe datasets l = .ok ((ldf, lnm), l') →
      DataframeNode.get_dataframe datasets r = .ok ((rdf, rnm), r') →
      ldf.types.length = rdf.types.length →
      exceptList ((ldf.types.zip rdf.types).map (fun p => implicitly_coerce p.1 p.2))
        = .ok combined_types →
      ldf.dataframe.cols = rdf.dataframe.cols →
      ldf.dataframe.cols.Nodup →
      (∀ p ∈ ldf.dataframe.rows, (p : Idx × List Cell).2.length = ldf.dataframe.cols.length) →
      (∀ p ∈ rdf.dataframe.rows, (p : Idx × List Cell).2.length = ldf.dataframe.cols.length) →
      DataframeNode.get_dataframe datasets (.setOperation l "UNION_ALL" r) =
        .ok ((⟨⟨ldf.dataframe.cols, ldf.dataframe.rows ++ rdf.dataframe.rows⟩,
          combined_types⟩, none), .setOperation l' "UNION_ALL" r'))
    ∧ ((DataframeNode.get_dataframe unionDatasets unionMismatchNode).map
        (fun res => (res.1.1.dataframe.cols, res.1.1.types)) =
      .ok (["a", "b"], [some .integer]))
    ∧ ((DataframeNode.get_dataframe unionDatasets unionMismatchNode).map
        (fun res => decide (res.1.1.dataframe.cols.length > res.1.1.types.length)) =
      .ok true) := by
  refine ⟨?_, by decide, by decide⟩
  intro datasets l r l' r' ldf rdf lnm rnm combined_types hl hr hlen hco hcols hnd hllen hrlen
  simp only [DataframeNode.get_dataframe, hl, hr, exceptBind_ok]
  rw [if_neg (fun h => h hlen)]
  simp only [hco, exceptBind_ok, if_true]
  rw [pd_concat_same_cols ldf.dataframe rdf.dataframe hcols hnd hllen hrlen]
  rfl

/-- C10 witness: with identical column names on both sides the result is
the positional concatenation. -/
theorem union_all_aligns_columns_by_name_witness :
    DataframeNode.get_dataframe unionDatasets
        (.setOperation (.tableReference ["p", "d", "t2"]) "UNION_ALL"
          (.tableReference ["p", "d", "t2"])) =
      .ok ((⟨⟨["b"], [([.int 0], [.int 2]), ([.int 0], [.int 2])]⟩, [some .integer]⟩, none),
        .setOperation (.tableReference ["p", "d", "t2"]) "UNION_ALL"
          (.tableReference ["p", "d", "t2"])) :=
  union_all_aligns_columns_by_name.1 unionDatasets (.tableReference ["p", "d", "t2"])
    (.tableReference ["p", "d", "t2"]) (.tableReference ["p", "d", "t2"])
    (.tableReference ["p", "d", "t2"]) unionTableB unionTableB
    (some "t2") (some "t2") [some .integer] rfl rfl rfl rfl rfl
    (by decide) (by decide) (by decide)

/-- C8: explicitly unsupported features fail loudly with a
not-implemented error: (i) SELECT DISTINCT on evaluation; (ii) a WITH
clause before the base query is evaluated (for **every** base query,
even one whose own evaluation would fail differently); (iii) a set
operator other than UNION_ALL, naming the operator; (iv) an unknown
function name at construction time; (v) an aggregating function called
with other than exactly one argument at construction time. -/
theorem not_implemented_features_fail_loudly :
    (∀ (datasets : Datasets) (fields : List EvaluatableNode) (from_ : Option DataSource)
        (w : Option EvaluatableNode) (g : Option (List EvaluatableNode))
        (hv : Option EvaluatableNode),
      DataframeNode.get_dataframe datasets (.select (some "DISTINCT") fields from_ w g hv) =
        .error (.notImplementedError "SELECT DISTINCT not implemented"))
    ∧ (∀ (datasets : Datasets) (wl : List (String × DataframeNode)) (base : DataframeNode)
        (ob : Option (List (EvaluatableNode × Option String)))
        (lim : Option (EvaluatableNode × Option EvaluatableNode)),
      DataframeNode.get_dataframe datasets (.queryExpression (some wl) base ob lim) =
        .error (.notImplementedError "WITH expressions are not implemented yet."))
    ∧ (∀ (datasets : Datasets) (l r l' r' : DataframeNode) (ldf rdf : TypedDataFrame)
        (lnm rnm : Option String) (op : String) (combined : List (Option BQType)),
      DataframeNode.get_dataframe datasets l = .ok ((ldf, lnm), l') →
      DataframeNode.get_dataframe datasets r = .ok ((rdf, rnm), r') →
      ldf.types.length = rdf.types.length →
      exceptList ((ldf.types.zip rdf.types).map (fun p => implicitly_coerce p.1 p.2))
        = .ok combined →
      op ≠ "UNION_ALL" →
      DataframeNode.get_dataframe datasets (.setOperation l op r) =
        .error (.notImplementedError ("set operation " ++ op ++ " not implemented")))
    ∧ (∀ (function_name : String) (e : Option (List EvaluatableNode))
        (o : Option (Option (List EvaluatableNode) ×
          Option (List (EvaluatableNode × Option String)))),
      alookup (strUpper function_name) FUNCTION_MAP = none →
      FunctionCall.create function_name e o =
        .error (.notImplementedError
          ("Function " ++ strUpper function_name ++ " not implemented")))
    ∧ (∀ (function_name : String) (f : FuncInfo) (e : Option (List EvaluatableNode))
        (o : Option (Option (List EvaluatableNode) ×
          Option (List (EvaluatableNode × Option String)))),
      alookup (strUpper function_name) FUNCTION_MAP = some f →
      f.is_aggregating = true →
      (match e with | none => true | some es => decide (es.length ≠ 1)) = true →
      FunctionCall.create function_name e o =
        .error (.notImplementedError
          "Aggregating functions are only supported with 1 argument")) := by
  refine ⟨fun _ _ _ _ _ _ => rfl, fun _ _ _ _ _ => rfl, ?_, ?_, ?_⟩
  · intro datasets l r l' r' ldf rdf lnm rnm op combined hl hr hlen hco hop
    simp only [DataframeNode.get_dataframe, hl, hr, exceptBind_ok]
    rw [if_neg (fun hcontra => hcontra hlen)]
    simp only [hco, exceptBind_ok]
    rw [if_neg hop]
  · intro function_name e o hnone
    simp only [FunctionCall.create, hnone]
  · intro function_name f e o hsome hagg harg
    simp only [FunctionCall.create, hsome]
    rw [if_pos ⟨hagg, harg⟩]

/-- C8 witness: DISTINCT, WITH, INTERSECT, an unknown function `CORR`,
and `SUM()` with no argument, each at a concrete input. -/
theorem not_implemented_features_fail_loudly_witness :
    (DataframeNode.get_dataframe havingDatasets
        (.select (some "DISTINCT") [] none none none none) =
      .error (.notImplementedError "SELECT DISTINCT not implemented"))
    ∧ (DataframeNode.get_dataframe havingDatasets
        (.queryExpression (some [("foo", .tableReference ["nope"])])
          (.tableReference ["nope"]) none none) =
      .error (.notImplementedError "WITH expressions are not implemented yet."))
    ∧ (DataframeNode.get_dataframe unionDatasets
        (.setOperation (.tableReference ["p", "d", "t1"]) "INTERSECT"
          (.tableReference ["p", "d", "t2"])) =
      .error (.notImplementedError "set operation INTERSECT not implemented"))
    ∧ (FunctionCall.create "corr" none none =
      .error (.notImplementedError "Function CORR not implemented"))
    ∧ (FunctionCall.create "sum" none none =
      .error (.notImplementedError "Aggregating functions are only supported with 1 argument")) :=
  ⟨not_implemented_features_fail_loudly.1 havingDatasets [] none none none none,
   not_implemented_features_fail_loudly.2.1 havingDatasets [("foo", .tableReference ["nope"])]
     (.tableReference ["nope"]) none none,
   not_implemented_features_fail_loudly.2.2.1 unionDatasets (.tableReference ["p", "d", "t1"])
     (.tableReference ["p", "d", "t2"]) (.tableReference ["p", "d", "t1"])
     (.tableReference ["p", "d", "t2"]) unionTableA unionTableB (some "t1") (some "t2")
     "INTERSECT" [some .integer] rfl rfl rfl rfl (by decide),
   not_implemented_features_fail_loudly.2.2.2.1 "corr" none none (by decide),
   not_implemented_features_fail_loudly.2.2.2.2 "sum" .sum none none (by decide) rfl rfl⟩

/-- An in-range positional grouper is rewritten to the named field. -/
theorem rewrite_grouper_int_in_range (fields : List EvaluatableNode) (n : Int)
    (t : Option BQType) (c : EvaluatableNode) (al : Option String) (pos : Option Nat)
    (nm : String)
    (h1 : 1 ≤ n)
    (h2 : fields.get? (n - 1).toNat = some (.selector c al pos))
    (h3 : selectorName c al pos = .ok nm) :
    Select.rewrite_grouper fields (.value (.int n) t) = .ok (.field [nm]) := by
  obtain ⟨hlt, hget⟩ := List.get?_eq_some.mp h2
  have hc : ¬ ((n : Int) - 1 < 0) := by omega
  simp only [Select.rewrite_grouper, Cell.asPyInt, hc, if_false]
  rw [dif_pos ⟨by omega, hlt⟩]
  simp only [hget, h3, exceptBind_ok]

/-- C2 (amended): a GROUP BY list entry that is the integer literal `N`
(with the N-th select field existing and named `nm`) is replaced at
construction time by a reference to that field, so the constructed
node — and therefore its evaluation on every catalog — is the same as
with `GROUP BY nm`; a **boolean** literal counts as an integer (Python
`bool` is a subclass of `int`), `TRUE` behaving as `1` and `FALSE` as
`0`; only a literal that is neither an integer nor a boolean fails with
the error naming the offending value. -/
theorem group_by_positional_reference (modifier : Option String)
    (fields0 : List EvaluatableNode) (from_ : Option DataSource)
    (where_ : Option EvaluatableNode) (having : Option EvaluatableNode)
    (pre post : List EvaluatableNode) (n : Int) (t : Option BQType)
    (c : EvaluatableNode) (al : Option String) (pos : Option Nat) (nm : String)
    (h1 : 1 ≤ n)
    (h2 : (Select.position_fields fields0).get? (n - 1).toNat = some (.selector c al pos))
    (h3 : selectorName c al pos = .ok nm) :
    (Select.init modifier fields0 from_ where_
        (some (pre ++ [.value (.int n) t] ++ post)) having =
      Select.init modifier fields0 from_ where_
        (some (pre ++ [.field [nm]] ++ post)) having)
    ∧ (∀ datasets : Datasets,
      (Select.init modifier fields0 from_ where_
          (some (pre ++ [.value (.int n) t] ++ post)) having).bind
        (fun nd => DataframeNode.get_dataframe datasets nd) =
      (Select.init modifier fields0 from_ where_
          (some (pre ++ [.field [nm]] ++ post)) having).bind
        (fun nd => DataframeNode.get_dataframe datasets nd))
    ∧ (∀ (b : Bool) (t' : Option BQType),
      Select.init modifier fields0 from_ where_
          (some (pre ++ [.value (.bool b) t'] ++ post)) having =
        Select.init modifier fields0 from_ where_
          (some (pre ++ [.value (.int (if b then 1 else 0)) t'] ++ post)) having)
    ∧ (∀ (v : Cell) (t' : Option BQType), v.asPyInt = none →
      Select.init modifier fields0 from_ where_ (some [.value v t']) having =
        .error (.valueError
          ("Attempt to group by a literal non-integer constant " ++ v.pyStr))) := by
  have helem : Select.rewrite_grouper (Select.position_fields fields0) (.value (.int n) t)
      = .ok (.field [nm]) :=
    rewrite_grouper_int_in_range _ n t c al pos nm h1 h2 h3
  have hmap : (pre ++ [EvaluatableNode.value (.int n) t] ++ post).map
        (Select.rewrite_grouper (Select.position_fields fields0)) =
      (pre ++ [EvaluatableNode.field [nm]] ++ post).map
        (Select.rewrite_grouper (Select.position_fields fields0)) := by
    simp only [List.map_append, List.map_cons, List.map_nil, helem]
    rfl
  have hinit : Select.init modifier fields0 from_ where_
        (some (pre ++ [.value (.int n) t] ++ post)) having =
      Select.init modifier fields0 from_ where_
        (some (pre ++ [.field [nm]] ++ post)) having := by
    simp only [Select.init, hmap]
  refine ⟨hinit, fun datasets => by rw [hinit], ?_, ?_⟩
  · intro b t'
    have hb : Select.rewrite_grouper (Select.position_fields fields0) (.value (.bool b) t')
        = Select.rewrite_grouper (Select.position_fields fields0)
          (.value (.int (if b then 1 else 0)) t') := by
      cases b <;> rfl
    have hmapb : (pre ++ [EvaluatableNode.value (.bool b) t'] ++ post).map
          (Select.rewrite_grouper (Select.position_fields fields0)) =
        (pre ++ [EvaluatableNode.value (.int (if b then 1 else 0)) t'] ++ post).map
          (Select.rewrite_grouper (Select.position_fields fields0)) := by
      simp only [List.map_append, List.map_cons, List.map_nil, hb]
    simp only [Select.init, hmapb]
  · intro v t' hv
    have herr : Select.rewrite_grouper (Select.position_fields fields0) (.value v t')
        = .error (.valueError
          ("Attempt to group by a literal non-integer constant " ++ v.pyStr)) := by
      simp only [Select.rewrite_grouper, hv]
    simp only [Select.init, List.map_cons, List.map_nil, herr, exceptList, exceptBind_error]

/-- C2 counterexample: `GROUP BY TRUE` does not raise the non-integer
error — Python `bool` is a subclass of `int`, so the boolean literal is
rewritten exactly like `GROUP BY 1` into a reference to the first
select field. -/
theorem group_by_boolean_literal_counterexample :
    (Select.init none [.selector (.field ["c"]) none none] none none
        (some [.value (.bool true) (some .boolean)]) none =
      Select.init none [.selector (.field ["c"]) none none] none none
        (some [.field ["c"]]) none)
    ∧ (Select.init none [.selector (.field ["c"]) none none] none none
        (some [.value (.bool true) (some .boolean)]) none ≠
      .error (.valueError
        ("Attempt to group by a literal non-integer constant " ++
          (Cell.bool true).pyStr))) :=
  ⟨rfl, fun h => Except.noConfusion h⟩

/-- C2 witness: `SELECT c FROM ... GROUP BY 1` constructs the same node
as `SELECT c FROM ... GROUP BY c`. -/
theorem group_by_positional_reference_witness :
    Select.init none [.selector (.field ["c"]) none none] none none
        (some [.value (.int 1) (some .integer)]) none =
      Select.init none [.selector (.field ["c"]) none none] none none
        (some [.field ["c"]]) none :=
  (group_by_positional_reference none [.selector (.field ["c"]) none none] none none none
    [] [] 1 (some .integer) (.field ["c"]) none (some 1) "c"
    (by norm_num) rfl rfl).1

/-- `SELECT SUM(a) FROM my_table WHERE false`. -/
def whereFalseAggSelect : DataframeNode :=
  .select none [.selector (.aggregatingFunctionCall .sum [.field ["a"]]) none (some 1)]
    (some ⟨["my_table"], none⟩) (some (.value (.bool false) (some .boolean))) none none

/-- A boolean mask that holds on every row keeps every row. -/
theorem locBool_all_true (rows : List (Idx × List Cell)) (mask : List (Idx × Cell))
    (h : ∀ p ∈ rows, alookup (p : Idx × List Cell).1 mask = some (.bool true)) :
    locBool rows mask = rows := by
  unfold locBool
  rw [List.filter_eq_self]
  intro p hp
  simp [h p hp]

/-- A boolean mask that is false on every row keeps no row. -/
theorem locBool_all_false (rows : List (Idx × List Cell)) (mask : List (Idx × Cell))
    (h : ∀ p ∈ rows, alookup (p : Idx × List Cell).1 mask = some (.bool false)) :
    locBool rows mask = [] := by
  unfold locBool
  rw [List.filter_eq_nil_iff]
  intro p hp
  simp [h p hp]

theorem setTable_self (ctx : EvaluationContext) :
    ctx.setTable ⟨⟨ctx.table.dataframe.cols, ctx.table.dataframe.rows⟩, ctx.table.types⟩
      = ctx := by
  cases ctx
  rfl

/-- The display name of an evaluated column. -/
def seriesNameOf (t : TypedSeries) : Option String :=
  match t.series with
  | .series s => s.name
  | .grouped g => g.name

/-- Field resolution only looks at the column names and selector names,
never at the rows. -/
theorem get_canonical_path_rows_irrelevant (cols : List String)
    (rows rows' : List (Idx × List Cell)) (types types' : List (Option BQType))
    (g : Option (List String)) (sn : List String) (gp : List (List String))
    (sub : Option EvaluationContext) (p : List String) :
    (EvaluationContext.mk ⟨⟨cols, rows⟩, types⟩ g sn gp sub).get_canonical_path p =
    (EvaluationContext.mk ⟨⟨cols, rows'⟩, types'⟩ g sn gp sub).get_canonical_path p := rfl

/-- Evaluating a plain field selector over the same columns with the
rows removed yields the same name and type over no rows. -/
theorem eval_field_selector_empty_table (cols : List String) (types : List (Option BQType))
    (sn : List String) (rows : List (Idx × List Cell)) (p : List String)
    (al : Option String) (pos : Option Nat) (t : TypedSeries)
    (h : evalNode (.selector (.field p) al pos)
        (.mk ⟨⟨cols, rows⟩, types⟩ none sn [] none) = .ok t) :
    (∃ s : PSeries, t.series = .series s) ∧
    evalNode (.selector (.field p) al pos)
        (.mk ⟨⟨cols, []⟩, types⟩ none sn [] none) =
      .ok ⟨.series ⟨[], seriesNameOf t⟩, t.type_⟩ := by
  simp only [evalNode, evalField] at h ⊢
  rw [get_canonical_path_rows_irrelevant cols [] rows types types none sn [] none p]
  rcases hcp : (EvaluationContext.mk ⟨⟨cols, rows⟩, types⟩ none sn [] none).get_canonical_path p
    with e | canonical
  · rw [hcp] at h
    cases h
  · rw [hcp] at h
    dsimp only at h ⊢
    rcases hn : selectorName (.field p) al pos with ne | nm
    · rw [hn] at h
      cases h
    · rw [hn] at h
      cases h
      exact ⟨⟨_, rfl⟩, rfl⟩

/-- The column names `_evaluate_fields_as_dataframe` gives the result
(the series names, positional labels for anonymous columns). -/
def fieldsCols (ts : List TypedSeries) : List String :=
  (ts.zip (List.range ts.length)).map (fun p =>
    match p.1.series with
    | .series s => s.name.getD (toString p.2)
    | .grouped g => g.name.getD (toString p.2))

/-- The shared index `_evaluate_fields_as_dataframe` aligns on. -/
def fieldsIndex (ts : List TypedSeries) : List Idx :=
  match ts.head? with
  | some t =>
    match t.series with
    | .series s => s.rows.map (fun p => p.1)
    | .grouped _ => []
  | none => []

/-- The rows `_evaluate_fields_as_dataframe` builds. -/
def fieldsRows (ts : List TypedSeries) : List (Idx × List Cell) :=
  (fieldsIndex ts).map (fun i => (i, ts.map (fun t =>
    match t.series with
    | .series s => (alookup i s.rows).getD .null
    | .grouped _ => .null)))

theorem fieldsCols_map_empty (ts : List TypedSeries)
    (hplain : ∀ t ∈ ts, ∃ s : PSeries, t.series = .series s) :
    fieldsCols (ts.map (fun t => (⟨.series ⟨[], seriesNameOf t⟩, t.type_⟩ : TypedSeries))) =
      fieldsCols ts := by
  unfold fieldsCols
  rw [List.length_map, List.zip_map_left, List.map_map]
  apply List.map_congr_left
  intro x hx
  obtain ⟨s, hs⟩ := hplain x.1 (List.of_mem_zip hx).1
  simp [Function.comp, Prod.map, seriesNameOf, hs]

theorem fieldsTypes_map_empty (ts : List TypedSeries) :
    (ts.map (fun t => (⟨.series ⟨[], seriesNameOf t⟩, t.type_⟩ : TypedSeries))).map
      (fun t => t.type_) = ts.map (fun t => t.type_) := by
  rw [List.map_map]
  rfl

theorem fieldsRows_map_empty (ts : List TypedSeries) :
    fieldsRows (ts.map (fun t =>
      (⟨.series ⟨[], seriesNameOf t⟩, t.type_⟩ : TypedSeries))) = [] := by
  cases ts <;> rfl

/-- List version of the previous lemma, also recording that every
evaluated field is an ungrouped column. -/
theorem evalNodeList_field_selectors (cols : List String) (types : List (Option BQType))
    (sn : List String) (rows : List (Idx × List Cell)) :
    ∀ (fields : List EvaluatableNode) (ts : List TypedSeries),
      (∀ f ∈ fields, ∃ p al pos, f = .selector (.field p) al pos) →
      evalNodeList fields (.mk ⟨⟨cols, rows⟩, types⟩ none sn [] none) = .ok ts →
      evalNodeList fields (.mk ⟨⟨cols, []⟩, types⟩ none sn [] none) =
        .ok (ts.map (fun t => ⟨.series ⟨[], seriesNameOf t⟩, t.type_⟩)) ∧
      ∀ t ∈ ts, ∃ s : PSeries, t.series = .series s
  | [], ts, _, h => by
    simp only [evalNodeList] at h
    cases h
    exact ⟨rfl, by simp⟩
  | f :: fs, ts, hshape, h => by
    obtain ⟨p, al, pos, rfl⟩ := hshape f (List.mem_cons_self f fs)
    simp only [evalNodeList] at h ⊢
    rcases h1 : evalNode (.selector (.field p) al pos)
        (.mk ⟨⟨cols, rows⟩, types⟩ none sn [] none) with e | t1
    · rw [h1] at h
      simp only [exceptBind_error] at h
      cases h
    · rw [h1] at h
      simp only [exceptBind_ok] at h
      rcases h2 : evalNodeList fs (.mk ⟨⟨cols, rows⟩, types⟩ none sn [] none) with e | ts1
      · rw [h2] at h
        simp only [exceptBind_error] at h
        cases h
      · rw [h2] at h
        simp only [exceptBind_ok] at h
        cases h
        obtain ⟨hsh1, hempty1⟩ := eval_field_selector_empty_table cols types sn rows p al pos t1 h1
        obtain ⟨hrest, hshr⟩ := evalNodeList_field_selectors cols types sn rows fs ts1
          (fun f hf => hshape f (List.mem_cons_of_mem _ hf)) h2
        rw [hempty1, hrest]
        simp only [exceptBind_ok, List.map_cons]
        refine ⟨by trivial, ?_⟩
        intro t ht
        rcases List.mem_cons.mp ht with h' | h'
        · exact h' ▸ hsh1
        · exact hshr t h'

/-- C9 (amended): (i) a WHERE condition true on every row leaves the
whole SELECT evaluation unchanged compared to omitting the WHERE clause;
(ii) for a SELECT list of plain field selectors (no aggregates), a WHERE
condition false on every row yields a zero-row result whose column names
and column types equal those of the no-WHERE result.  (An aggregating
select still produces one row — see the counterexample.) -/
theorem where_filter_semantics :
    (∀ (datasets : Datasets) (modifier : Option String) (fields : List EvaluatableNode)
        (from_ : Option DataSource) (gb : Option (List EvaluatableNode))
        (hav : Option EvaluatableNode) (w : EvaluatableNode) (ctx1 : EvaluationContext)
        (mask : PSeries) (τ : Option BQType),
      Select.setup_context datasets fields from_ none = .ok ctx1 →
      evalNode w ctx1 = .ok ⟨.series mask, τ⟩ →
      (∀ p ∈ ctx1.table.dataframe.rows,
        alookup (p : Idx × List Cell).1 mask.rows = some (.bool true)) →
      Select.get_dataframe datasets modifier fields from_ (some w) gb hav none =
        Select.get_dataframe datasets modifier fields from_ none gb hav none)
    ∧ (∀ (datasets : Datasets) (modifier : Option String) (fields : List EvaluatableNode)
        (from_ : Option DataSource) (w : EvaluatableNode)
        (cols : List String) (rows : List (Idx × List Cell)) (types : List (Option BQType))
        (sn : List String) (mask : PSeries) (τ : Option BQType) (ts : List TypedSeries),
      modifier ≠ some "DISTINCT" →
      Select.setup_context datasets fields from_ none =
        .ok (.mk ⟨⟨cols, rows⟩, types⟩ none sn [] none) →
      (∀ f ∈ fields, ∃ p al pos, f = .selector (.field p) al pos) →
      evalNode w (.mk ⟨⟨cols, rows⟩, types⟩ none sn [] none) = .ok ⟨.series mask, τ⟩ →
      (∀ q ∈ rows, alookup (q : Idx × List Cell).1 mask.rows = some (.bool false)) →
      evalNodeList fields (.mk ⟨⟨cols, rows⟩, types⟩ none sn [] none) = .ok ts →
      ∃ res0 res1 : TypedDataFrame,
        Select.get_dataframe datasets modifier fields from_ none none none none =
          .ok ((res0, none), fields) ∧
        Select.get_dataframe datasets modifier fields from_ (some w) none none none =
          .ok ((res1, none), fields) ∧
        res1.dataframe.rows = [] ∧
        res1.dataframe.cols = res0.dataframe.cols ∧
        res1.types = res0.types) := by
  constructor
  · intro datasets modifier fields from_ gb hav w ctx1 mask τ hsetup hw htrue
    simp only [Select.get_dataframe]
    split
    · rfl
    · simp only [hsetup, exceptBind_ok, hw, requireSeries, exceptBind_ok]
      rw [locBool_all_true _ _ htrue, setTable_self]
  · intro datasets modifier fields from_ w cols rows types sn mask τ ts hmod hsetup hshape
      hw hfalse hts
    obtain ⟨hempty, hplain⟩ := evalNodeList_field_selectors cols types sn rows fields ts hshape hts
    have hfind0 : (fields.zip ts).find? (fun p =>
        match p.2.series with | .grouped _ => true | _ => false) = none := by
      rw [List.find?_eq_none]
      intro x hx
      obtain ⟨s, hs⟩ := hplain x.2 (List.of_mem_zip hx).2
      simp [hs]
    have hfind1 : (fields.zip (ts.map (fun t =>
        (⟨.series ⟨[], seriesNameOf t⟩, t.type_⟩ : TypedSeries)))).find? (fun p =>
        match p.2.series with | .grouped _ => true | _ => false) = none := by
      rw [List.find?_eq_none]
      intro x hx
      have hx2 := (List.of_mem_zip hx).2
      obtain ⟨t0, _, ht0⟩ := List.mem_map.mp hx2
      simp [← ht0]
    have hev0 : _evaluate_fields_as_dataframe fields
        (.mk ⟨⟨cols, rows⟩, types⟩ none sn [] none) =
        .ok ⟨⟨fieldsCols ts, fieldsRows ts⟩, ts.map (fun t => t.type_)⟩ := by
      simp only [_evaluate_fields_as_dataframe, hts, exceptBind_ok, hfind0]
      rfl
    have hev1 : _evaluate_fields_as_dataframe fields
        (.mk ⟨⟨cols, []⟩, types⟩ none sn [] none) =
        .ok ⟨⟨fieldsCols ts, []⟩, ts.map (fun t => t.type_)⟩ := by
      simp only [_evaluate_fields_as_dataframe, hempty, exceptBind_ok, hfind1]
      rw [← fieldsCols_map_empty ts hplain, ← fieldsTypes_map_empty ts,
        ← fieldsRows_map_empty ts]
      rfl
    refine ⟨⟨⟨fieldsCols ts, fieldsRows ts⟩, ts.map (fun t => t.type_)⟩,
      ⟨⟨fieldsCols ts, []⟩, ts.map (fun t => t.type_)⟩, ?_, ?_, rfl, rfl, rfl⟩
    · simp only [Select.get_dataframe]
      rw [if_neg hmod]
      simp only [hsetup, exceptBind_ok, hev0, exceptBind_ok]
      rfl
    · simp only [Select.get_dataframe]
      rw [if_neg hmod]
      simp only [hsetup, exceptBind_ok, hw, requireSeries, exceptBind_ok,
        EvaluationContext.table]
      rw [locBool_all_false _ _ hfalse]
      simp only [EvaluationContext.setTable, hev1, exceptBind_ok]
      rfl

/-- C9 counterexample: with an aggregate in the SELECT list, a WHERE
condition false on every row does **not** yield an empty result — the
aggregate of the empty selection still produces one row (here
`SUM(a) = 0` over no rows). -/
theorem where_false_aggregate_one_row :
    ((DataframeNode.get_dataframe havingDatasets whereFalseAggSelect).map
        (fun r => r.1.1.dataframe) =
      .ok ⟨["_f1"], [([.int 0], [.int 0])]⟩)
    ∧ ((DataframeNode.get_dataframe havingDatasets whereFalseAggSelect).map
        (fun r => r.1.1.dataframe.rows.length) ≠ .ok 0) := by
  decide

/-- C9 witness: `SELECT a FROM my_table` with `WHERE TRUE` equals the
same select without a WHERE clause, and with `WHERE FALSE` it keeps the
column names and types but no rows. -/
theorem where_filter_semantics_witness :
    (Select.get_dataframe havingDatasets none [.selector (.field ["a"]) none (some 0)]
        (some ⟨["my_table"], none⟩) (some (.value (.bool true) (some .boolean))) none none none =
      Select.get_dataframe havingDatasets none [.selector (.field ["a"]) none (some 0)]
        (some ⟨["my_table"], none⟩) none none none none)
    ∧ ∃ res0 res1 : TypedDataFrame,
        Select.get_dataframe havingDatasets none [.selector (.field ["a"]) none (some 0)]
            (some ⟨["my_table"], none⟩) none none none none =
          .ok ((res0, none), [.selector (.field ["a"]) none (some 0)]) ∧
        Select.get_dataframe havingDatasets none [.selector (.field ["a"]) none (some 0)]
            (some ⟨["my_table"], none⟩) (some (.value (.bool false) (some .boolean)))
            none none none =
          .ok ((res1, none), [.selector (.field ["a"]) none (some 0)]) ∧
        res1.dataframe.rows = [] ∧
        res1.dataframe.cols = res0.dataframe.cols ∧
        res1.types = res0.types :=
  ⟨where_filter_semantics.1 havingDatasets none [.selector (.field ["a"]) none (some 0)]
      (some ⟨["my_table"], none⟩) none none (.value (.bool true) (some .boolean))
      (.mk ⟨⟨["my_table.a", "my_table.b"],
          [([.int 0], [.int 4, .int 5]), ([.int 1], [.int 1, .int 5]),
           ([.int 2], [.int 3, .int 6]), ([.int 3], [.int 9, .int 7])]⟩,
        [some .integer, some .integer]⟩ none ["a"] [] none)
      ⟨[([.int 0], .bool true), ([.int 1], .bool true),
        ([.int 2], .bool true), ([.int 3], .bool true)], none⟩ (some .boolean)
      rfl rfl (by decide),
   where_filter_semantics.2 havingDatasets none [.selector (.field ["a"]) none (some 0)]
      (some ⟨["my_table"], none⟩) (.value (.bool false) (some .boolean))
      ["my_table.a", "my_table.b"]
      [([.int 0], [.int 4, .int 5]), ([.int 1], [.int 1, .int 5]),
       ([.int 2], [.int 3, .int 6]), ([.int 3], [.int 9, .int 7])]
      [some .integer, some .integer] ["a"]
      ⟨[([.int 0], .bool false), ([.int 1], .bool false),
        ([.int 2], .bool false), ([.int 3], .bool false)], none⟩ (some .boolean)
      [⟨.series ⟨[([.int 0], .int 4), ([.int 1], .int 1),
          ([.int 2], .int 3), ([.int 3], .int 9)], some "a"⟩, some .integer⟩]
      (by decide) rfl
      (by intro f hf
          simp only [List.mem_singleton] at hf
          exact ⟨["a"], none, some 0, hf⟩)
      rfl (by decide) rfl⟩

/-- C6: in `_evaluate_fields_as_dataframe`, a SELECT-list field whose
evaluation is still group-shaped (a `SeriesGroupBy` that was never
aggregated and is not a grouping key) makes evaluation fail with the
ValueError "selecting expression ... that is not aggregated or grouped
by" naming the offending expression; when no field is in that state the
result table is the column-wise concatenation of the evaluated fields
(their names as columns, their types, the rows aligned on the first
field's index). -/
theorem ungrouped_field_is_an_error (fields : List EvaluatableNode)
    (ctx : EvaluationContext) (ts : List TypedSeries)
    (hts : evalNodeList fields ctx = .ok ts) :
    (∀ f g, (fields.zip ts).find? (fun p =>
        match p.2.series with | .grouped _ => true | _ => false) = some (f, g) →
      _evaluate_fields_as_dataframe fields ctx =
        .error (.valueError ("selecting expression " ++ f.strexpr ++
          " that is not aggregated or grouped by")))
    ∧ ((fields.zip ts).find? (fun p =>
        match p.2.series with | .grouped _ => true | _ => false) = none →
      _evaluate_fields_as_dataframe fields ctx =
        .ok ⟨⟨fieldsCols ts, fieldsRows ts⟩, ts.map (fun t => t.type_)⟩) := by
  constructor
  · intro f g hfind
    simp only [_evaluate_fields_as_dataframe, hts, exceptBind_ok, hfind]
  · intro hfind
    simp only [_evaluate_fields_as_dataframe, hts, exceptBind_ok, hfind]
    rfl

/-- C6 witness: the field `a` over a table grouped by `b` (with `a` not
aggregated) is the ValueError naming `a`; the same field in the
ungrouped context concatenates into a one-column table. -/
theorem ungrouped_field_is_an_error_witness :
    (_evaluate_fields_as_dataframe [.selector (.field ["a"]) none (some 0)]
        (.mk ⟨⟨["my_table.a", "my_table.b"],
            [([.int 0], [.int 4, .int 5]), ([.int 1], [.int 1, .int 5]),
             ([.int 2], [.int 3, .int 6]), ([.int 3], [.int 9, .int 7])]⟩,
          [some .integer, some .integer]⟩
          (some ["my_table.b"]) ["a"] [["my_table", "b"]] none) =
      .error (.valueError "selecting expression a that is not aggregated or grouped by"))
    ∧ (_evaluate_fields_as_dataframe [.selector (.field ["a"]) none (some 0)]
        (.mk ⟨⟨["my_table.a", "my_table.b"],
            [([.int 0], [.int 4, .int 5]), ([.int 1], [.int 1, .int 5]),
             ([.int 2], [.int 3, .int 6]), ([.int 3], [.int 9, .int 7])]⟩,
          [some .integer, some .integer]⟩ none ["a"] [] none) =
      .ok ⟨⟨["a"], [([.int 0], [.int 4]), ([.int 1], [.int 1]),
          ([.int 2], [.int 3]), ([.int 3], [.int 9])]⟩, [some .integer]⟩) :=
  ⟨(ungrouped_field_is_an_error [.selector (.field ["a"]) none (some 0)]
      (.mk ⟨⟨["my_table.a", "my_table.b"],
          [([.int 0], [.int 4, .int 5]), ([.int 1], [.int 1, .int 5]),
           ([.int 2], [.int 3, .int 6]), ([.int 3], [.int 9, .int 7])]⟩,
        [some .integer, some .integer]⟩
        (some ["my_table.b"]) ["a"] [["my_table", "b"]] none)
      [⟨.grouped ⟨[([.int 5], [([.int 0], .int 4), ([.int 1], .int 1)]),
          ([.int 6], [([.int 2], .int 3)]), ([.int 7], [([.int 3], .int 9)])],
        some "a"⟩, some .integer⟩] rfl).1
    (.selector (.field ["a"]) none (some 0))
    ⟨.grouped ⟨[([.int 5], [([.int 0], .int 4), ([.int 1], .int 1)]),
        ([.int 6], [([.int 2], .int 3)]), ([.int 7], [([.int 3], .int 9)])],
      some "a"⟩, some .integer⟩ rfl,
   (ungrouped_field_is_an_error [.selector (.field ["a"]) none (some 0)]
      (.mk ⟨⟨["my_table.a", "my_table.b"],
          [([.int 0], [.int 4, .int 5]), ([.int 1], [.int 1, .int 5]),
           ([.int 2], [.int 3, .int 6]), ([.int 3], [.int 9, .int 7])]⟩,
        [some .integer, some .integer]⟩ none ["a"] [] none)
      [⟨.series ⟨[([.int 0], .int 4), ([.int 1], .int 1),
          ([.int 2], .int 3), ([.int 3], .int 9)], some "a"⟩, some .integer⟩] rfl).2 rfl⟩

/-- C3 (amended): `QueryExpression._order_by`.  (i) When every ORDER BY
key resolves, the result keeps the (qualified) column names and the
types, its rows are a permutation of the input rows sorted by the
resolved keys; with **two or more** sort keys the sort is stable (the
pandas `lexsort` path): two rows that compare equal on every sort key
and appear in a given relative order in the input appear in that same
relative order in the output — for a single key pandas falls through to
numpy quicksort and only sortedness and permutation are guaranteed.
(ii) A `Field` key resolves through the context to its dotted canonical
path; (iii) a 1-based in-range integer literal `n` resolves to the
table's `n`-th output column — with `DESC` giving a descending key and
anything else ascending; (iv) a literal that is neither an integer nor
a boolean fails with the ValueError naming the value; (v) a **boolean**
literal counts as an integer (Python `bool` is a subclass of `int`),
`TRUE` behaving as `1` and `FALSE` as `0`. -/
theorem order_by_stable_multikey_sort :
    (∀ (order_by : List (EvaluatableNode × Option String)) (tdf : TypedDataFrame)
        (name : Option String) (keys : List (String × Bool)),
      resolve_order_keys order_by (add_table_from_dataframe tdf name) = .ok keys →
      order_by_impl order_by tdf name =
        .ok ⟨sort_values (add_table_from_dataframe tdf name).dataframe keys,
          (add_table_from_dataframe tdf name).types⟩ ∧
      (sort_values (add_table_from_dataframe tdf name).dataframe keys).cols =
        (add_table_from_dataframe tdf name).dataframe.cols ∧
      ((sort_values (add_table_from_dataframe tdf name).dataframe keys).rows.Perm
        (add_table_from_dataframe tdf name).dataframe.rows) ∧
      ((sort_values (add_table_from_dataframe tdf name).dataframe keys).rows.Sorted
        (rowLe (add_table_from_dataframe tdf name).dataframe.cols keys)) ∧
      (2 ≤ keys.length →
        ∀ r1 r2 : Idx × List Cell,
        keyCmp (add_table_from_dataframe tdf name).dataframe.cols keys r1.2 r2.2 = .eq →
        [r1, r2].Sublist (add_table_from_dataframe tdf name).dataframe.rows →
        [r1, r2].Sublist
          (sort_values (add_table_from_dataframe tdf name).dataframe keys).rows))
    ∧ (∀ (d : Option String) (t : TypedDataFrame) (p cp : List String),
      (EvaluationContext.ofTable t).get_canonical_path p = .ok cp →
      resolve_order_keys [(.field p, d)] t =
        .ok [(String.intercalate "." cp, decide (¬ d = some "DESC"))])
    ∧ (∀ (d : Option String) (t : TypedDataFrame) (n : Int) (τ : Option BQType)
        (h1 : 0 < n) (h2 : n.toNat ≤ t.dataframe.cols.length),
      resolve_order_keys [(.value (.int n) τ, d)] t =
        .ok [(t.dataframe.cols.get ⟨n.toNat - 1, by omega⟩, decide (¬ d = some "DESC"))])
    ∧ (∀ (d : Option String) (t : TypedDataFrame) (v : Cell) (τ : Option BQType),
      v.asPyInt = none →
      resolve_order_keys [(.value v τ, d)] t =
        .error (.valueError ("Attempt to order by a literal non-integer constant " ++
          v.pyStr)))
    ∧ (∀ (d : Option String) (t : TypedDataFrame) (b : Bool) (τ : Option BQType),
      resolve_order_keys [(.value (.bool b) τ, d)] t =
        resolve_order_keys [(.value (.int (if b then 1 else 0)) τ, d)] t) := by
  refine ⟨?_, ?_, ?_, ?_, ?_⟩
  · intro order_by tdf name keys hkeys
    refine ⟨?_, rfl, List.perm_insertionSort _ _, List.sorted_insertionSort _ _, ?_⟩
    · simp only [order_by_impl, hkeys, exceptBind_ok]
    · intro _hkl r1 r2 heq hsub
      refine List.pair_sublist_insertionSort ?_ hsub
      unfold rowLe
      rw [heq]
      simp
  · intro d t p cp hcp
    simp only [resolve_order_keys, List.map_cons, List.map_nil, hcp, exceptBind_ok]
    rfl
  · intro d t n τ h1 h2
    have hc : ¬((n : Int) - 1 < 0) := by omega
    simp only [resolve_order_keys, Cell.asPyInt, List.map_cons, List.map_nil, hc, if_false]
    rw [dif_pos ⟨by omega, by omega⟩]
    simp only [exceptBind_ok]
    have hfin : (⟨((n : Int) - 1).toNat, by omega⟩ : Fin t.dataframe.cols.length) =
        ⟨n.toNat - 1, by omega⟩ := by
      simp only [Fin.mk.injEq]
      omega
    rw [hfin]
    rfl
  · intro d t v τ hv
    simp only [resolve_order_keys, List.map_cons, List.map_nil, hv]
    rfl
  · intro d t b τ
    cases b <;> rfl

/-- C3 counterexample: `ORDER BY TRUE` does not raise the non-integer
error — Python `bool` is a subclass of `int`, so it sorts by the first
output column exactly like `ORDER BY 1`, and `ORDER BY FALSE` behaves
as `ORDER BY 0`, wrapping to the **last** column through Python
negative indexing. -/
theorem order_by_boolean_literal_counterexample :
    (resolve_order_keys [(.value (.bool true) none, none)]
        (add_table_from_dataframe havingTable (some "my_table")) =
      .ok [("my_table.a", true)])
    ∧ (resolve_order_keys [(.value (.bool false) none, none)]
        (add_table_from_dataframe havingTable (some "my_table")) =
      .ok [("my_table.b", true)])
    ∧ (resolve_order_keys [(.value (.bool true) none, none)]
        (add_table_from_dataframe havingTable (some "my_table")) ≠
      .error (.valueError
        "Attempt to order by a literal non-integer constant True")) := by
  refine ⟨by decide, by decide, by decide⟩

/-- C3 witness: the two-key `ORDER BY b, b DESC` (pandas lexsort path,
with genuine ties on `b = 5`) keeps the already-sorted rows in input
order with columns and types kept; `ORDER BY a DESC`, `ORDER BY 2`,
`ORDER BY 'x'` and `ORDER BY TRUE` resolve to the descending dotted
path, the second column, the non-integer error, and the first column
respectively. -/
theorem order_by_stable_multikey_sort_witness :
    (order_by_impl [(.field ["b"], none), (.field ["b"], some "DESC")] havingTable
          (some "my_table") =
        .ok ⟨⟨["my_table.a", "my_table.b"],
            [([.int 0], [.int 4, .int 5]), ([.int 1], [.int 1, .int 5]),
             ([.int 2], [.int 3, .int 6]), ([.int 3], [.int 9, .int 7])]⟩,
          [some .integer, some .integer]⟩ ∧
      (sort_values (add_table_from_dataframe havingTable (some "my_table")).dataframe
          [("my_table.b", true), ("my_table.b", false)]).cols =
        (add_table_from_dataframe havingTable (some "my_table")).dataframe.cols ∧
      ((sort_values (add_table_from_dataframe havingTable (some "my_table")).dataframe
          [("my_table.b", true), ("my_table.b", false)]).rows.Perm
        (add_table_from_dataframe havingTable (some "my_table")).dataframe.rows) ∧
      ((sort_values (add_table_from_dataframe havingTable (some "my_table")).dataframe
          [("my_table.b", true), ("my_table.b", false)]).rows.Sorted
        (rowLe (add_table_from_dataframe havingTable (some "my_table")).dataframe.cols
          [("my_table.b", true), ("my_table.b", false)])) ∧
      (2 ≤ ([("my_table.b", true), ("my_table.b", false)] : List (String × Bool)).length →
        ∀ r1 r2 : Idx × List Cell,
        keyCmp (add_table_from_dataframe havingTable (some "my_table")).dataframe.cols
          [("my_table.b", true), ("my_table.b", false)] r1.2 r2.2 = .eq →
        [r1, r2].Sublist
          (add_table_from_dataframe havingTable (some "my_table")).dataframe.rows →
        [r1, r2].Sublist
          (sort_values (add_table_from_dataframe havingTable (some "my_table")).dataframe
            [("my_table.b", true), ("my_table.b", false)]).rows))
    ∧ (resolve_order_keys [(.field ["a"], some "DESC")]
        (add_table_from_dataframe havingTable (some "my_table")) =
      .ok [("my_table.a", false)])
    ∧ (resolve_order_keys [(.value (.int 2) none, none)]
        (add_table_from_dataframe havingTable (some "my_table")) =
      .ok [("my_table.b", true)])
    ∧ (resolve_order_keys [(.value (.str "x") none, none)]
        (add_table_from_dataframe havingTable (some "my_table")) =
      .error (.valueError "Attempt to order by a literal non-integer constant x"))
    ∧ (resolve_order_keys [(.value (.bool true) (some .boolean), none)]
        (add_table_from_dataframe havingTable (some "my_table")) =
      resolve_order_keys [(.value (.int 1) (some .boolean), none)]
        (add_table_from_dataframe havingTable (some "my_table"))) :=
  ⟨order_by_stable_multikey_sort.1
      [(.field ["b"], none), (.field ["b"], some "DESC")] havingTable
      (some "my_table") [("my_table.b", true), ("my_table.b", false)] rfl,
   order_by_stable_multikey_sort.2.1 (some "DESC")
      (add_table_from_dataframe havingTable (some "my_table")) ["a"] ["my_table", "a"] rfl,
   order_by_stable_multikey_sort.2.2.1 none
      (add_table_from_dataframe havingTable (some "my_table")) 2 none (by decide) (by decide),
   order_by_stable_multikey_sort.2.2.2.1 none
      (add_table_from_dataframe havingTable (some "my_table")) (.str "x") none rfl,
   order_by_stable_multikey_sort.2.2.2.2 none
      (add_table_from_dataframe havingTable (some "my_table")) true (some .boolean)⟩

/-! ### The intermediate frames of `_AnalyticFunctionCall._evaluate_node`,
named so the analytic theorems can speak about them (each is
definitionally the corresponding `let` of `analyticEvaluate`). -/

/-- The synthetic `_colJ` column names of the evaluated children. -/
def anColnames (children : List (PSeries × Option BQType)) : List String :=
  (List.range children.length).map (fun j => "_col" ++ toString j)

/-- The index of the analytic frame: the first child's index. -/
def anIndex (children : List (PSeries × Option BQType)) : List Idx :=
  match children.head? with
  | some c => c.1.rows.map (fun p => p.1)
  | none => []

/-- The frame holding the evaluated children as columns. -/
def anDf0 (children : List (PSeries × Option BQType)) : PDataFrame :=
  ⟨anColnames children, (anIndex children).map
    (fun i => (i, children.map (fun c => (alookup i c.1.rows).getD .null)))⟩

/-- The ORDER BY column paths. -/
def anOrderPaths (num_arguments num_partition_by : Nat)
    (children : List (PSeries × Option BQType)) : List String :=
  (anColnames children).drop (num_arguments + num_partition_by)

/-- The frame after the ORDER BY sort. -/
def anDf1 (num_arguments num_partition_by : Nat) (order_by_ascending : List Bool)
    (children : List (PSeries × Option BQType)) : PDataFrame :=
  if (anOrderPaths num_arguments num_partition_by children).isEmpty then anDf0 children
  else sort_values (anDf0 children)
    ((anOrderPaths num_arguments num_partition_by children).zip order_by_ascending)

/-- The frame the grouping runs on, with its partition key columns (the
synthetic `__constant__` column when there is no PARTITION BY). -/
def anDfk (num_arguments num_partition_by : Nat) (order_by_ascending : List Bool)
    (children : List (PSeries × Option BQType)) : PDataFrame × List String :=
  if (((anColnames children).drop num_arguments).take num_partition_by).isEmpty then
    (⟨(anDf1 num_arguments num_partition_by order_by_ascending children).cols
        ++ ["__constant__"],
      (anDf1 num_arguments num_partition_by order_by_ascending children).rows.map
        (fun p => (p.1, p.2 ++ [Cell.int 100]))⟩,
     ["__constant__"])
  else (anDf1 num_arguments num_partition_by order_by_ascending children,
    ((anColnames children).drop num_arguments).take num_partition_by)

/-- The per-group ROW_NUMBER transforms, flattened: each group's member
rows (projected to the argument column) numbered 1, 2, … in group
order. -/
def rnFlat (df : PDataFrame) (keys : List String) (col : String) : List (Idx × Cell) :=
  ((groupsOf df keys).map (fun g =>
    (g.2.map (fun q => (q.1, cellAt df.cols col q.2))).mapIdx
      (fun j q => (q.1, Cell.int ((j : Int) + 1))))).flatten

/-- The output rows of `ROW_NUMBER`: one cell per frame row, realigned
through the index labels. -/
def rnOut (df : PDataFrame) (keys : List String) (col : String) : List (Idx × Cell) :=
  df.rows.map (fun p => (p.1, (alookup p.1 (rnFlat df keys col)).getD .null))

theorem alookup_eq_some_of_mem {α β : Type} [DecidableEq α] :
    ∀ {l : List (α × β)}, (l.map Prod.fst).Nodup → ∀ {k : α} {v : β}, (k, v) ∈ l →
      alookup k l = some v
  | [], _, _, _, hm => absurd hm (List.not_mem_nil _)
  | (k', v') :: rest, hnd, k, v, hm => by
    rw [List.map_cons, List.nodup_cons] at hnd
    rcases List.mem_cons.mp hm with he | ht
    · injection he with h1 h2
      subst h1
      subst h2
      simp [alookup]
    · have hk : k ≠ k' := fun h => hnd.1 (List.mem_map.mpr ⟨(k, v), ht, h⟩)
      simp only [alookup, if_neg hk]
      exact alookup_eq_some_of_mem hnd.2 ht

theorem map_fst_mapIdx {α β γ : Type} (l : List (α × β)) (F : Nat → γ) :
    (l.mapIdx (fun j q => (q.1, F j))).map Prod.fst = l.map Prod.fst := by
  induction l generalizing F with
  | nil => rfl
  | cons a l ih =>
    simp only [List.mapIdx_cons, List.map_cons]
    rw [ih]

theorem transformMembers_row_number (mem : List (Idx × Cell)) :
    transformMembers .row_number mem =
      .ok (mem.mapIdx (fun j q => (q.1, Cell.int ((j : Int) + 1)))) := rfl

theorem exceptList_transform_row_number
    (proj : (Idx × List (Idx × List Cell)) → List (Idx × Cell)) :
    ∀ l : List (Idx × List (Idx × List Cell)),
      exceptList (l.map (fun g => transformMembers .row_number (proj g))) =
        .ok (l.map (fun g => (proj g).mapIdx (fun j q => (q.1, Cell.int ((j : Int) + 1)))))
  | [] => rfl
  | g :: l => by
    show (transformMembers .row_number (proj g) >>= fun v =>
        exceptList (l.map (fun g => transformMembers .row_number (proj g))) >>= fun vs =>
        Except.ok (v :: vs)) = _
    rw [transformMembers_row_number, exceptBind_ok, exceptList_transform_row_number proj l,
      exceptBind_ok, List.map_cons]

theorem groupsOf_member_sublist (df : PDataFrame) (keys : List String) :
    ∀ g ∈ groupsOf df keys, g.2.Sublist df.rows := by
  intro g hg
  obtain ⟨k, hk, rfl⟩ := List.mem_map.mp hg
  exact List.filter_sublist _

theorem rnFlat_map_fst (df : PDataFrame) (keys : List String) (col : String) :
    (rnFlat df keys col).map Prod.fst =
      ((groupsOf df keys).map (fun g => g.2.map Prod.fst)).flatten := by
  unfold rnFlat
  rw [List.map_flatten, List.map_map]
  congr 1
  apply List.map_congr_left
  intro g hg
  show ((g.2.map _).mapIdx _).map Prod.fst = _
  rw [map_fst_mapIdx, List.map_map]
  rfl

theorem rnFlat_nodup_fst (df : PDataFrame) (keys : List String) (col : String)
    (hnd : (df.rows.map Prod.fst).Nodup) :
    ((rnFlat df keys col).map Prod.fst).Nodup := by
  rw [rnFlat_map_fst, List.nodup_flatten]
  constructor
  · intro l hl
    obtain ⟨g, hg, rfl⟩ := List.mem_map.mp hl
    exact hnd.sublist ((groupsOf_member_sublist df keys g hg).map Prod.fst)
  · unfold groupsOf
    rw [List.map_map, List.pairwise_map]
    have hsk : ((df.rows.map (fun p => groupKeyOf df.cols keys p.2)).dedup.insertionSort
        (fun a b => idxCmp a b ≠ .gt)).Nodup :=
      (List.perm_insertionSort _ _).nodup_iff.mpr (List.nodup_dedup _)
    refine hsk.imp ?_
    intro k1 k2 hne
    intro x hx1 hx2
    simp only [Function.comp] at hx1 hx2
    obtain ⟨p1, hp1, hxe1⟩ := List.mem_map.mp hx1
    obtain ⟨p2, hp2, hxe2⟩ := List.mem_map.mp hx2
    obtain ⟨hp1r, hk1⟩ := List.mem_filter.mp hp1
    obtain ⟨hp2r, hk2⟩ := List.mem_filter.mp hp2
    have hpe : p1 = p2 :=
      List.inj_on_of_nodup_map hnd hp1r hp2r (hxe1.trans hxe2.symm)
    rw [decide_eq_true_eq] at hk1 hk2
    exact hne (by rw [← hk1, ← hk2, hpe])

theorem rnFlat_lookup (df : PDataFrame) (keys : List String) (col : String)
    (hnd : (df.rows.map Prod.fst).Nodup) :
    ∀ g ∈ groupsOf df keys, ∀ j (hj : j < g.2.length),
      alookup (g.2.get ⟨j, hj⟩).1 (rnFlat df keys col) = some (.int ((j : Int) + 1)) := by
  intro g hg j hj
  have hjp : j < (g.2.map (fun q => (q.1, cellAt df.cols col q.2))).length := by
    simpa using hj
  have hjn : j < ((g.2.map (fun q => (q.1, cellAt df.cols col q.2))).mapIdx
      (fun j q => (q.1, Cell.int ((j : Int) + 1)))).length := by
    simpa using hj
  have hmem : ((g.2.get ⟨j, hj⟩).1, Cell.int ((j : Int) + 1)) ∈ rnFlat df keys col := by
    unfold rnFlat
    apply List.mem_flatten_of_mem (List.mem_map_of_mem _ hg)
    have hget := List.get_mapIdx (g.2.map (fun q => (q.1, cellAt df.cols col q.2)))
      (fun j q => (q.1, Cell.int ((j : Int) + 1))) j hjp hjn
    have hgm : (g.2.map (fun q => (q.1, cellAt df.cols col q.2))).get ⟨j, hjp⟩ =
        ((g.2.get ⟨j, hj⟩).1, cellAt df.cols col (g.2.get ⟨j, hj⟩).2) := by
      simp [List.get_eq_getElem, List.getElem_map]
    rw [hgm] at hget
    rw [← hget]
    exact List.get_mem _ _ _
  exact alookup_eq_some_of_mem (rnFlat_nodup_fst df keys col hnd) hmem

theorem rnOut_map_fst (df : PDataFrame) (keys : List String) (col : String) :
    (rnOut df keys col).map Prod.fst = df.rows.map Prod.fst := by
  unfold rnOut
  rw [List.map_map]
  rfl

theorem rnOut_lookup (df : PDataFrame) (keys : List String) (col : String)
    (hnd : (df.rows.map Prod.fst).Nodup) :
    ∀ g ∈ groupsOf df keys, ∀ j (hj : j < g.2.length),
      alookup (g.2.get ⟨j, hj⟩).1 (rnOut df keys col) = some (.int ((j : Int) + 1)) := by
  intro g hg j hj
  have hrow : g.2.get ⟨j, hj⟩ ∈ df.rows :=
    (groupsOf_member_sublist df keys g hg).subset (List.get_mem _ _ _)
  have hmem : ((g.2.get ⟨j, hj⟩).1,
      (alookup (g.2.get ⟨j, hj⟩).1 (rnFlat df keys col)).getD .null) ∈ rnOut df keys col :=
    List.mem_map_of_mem _ hrow
  have hnd2 : ((rnOut df keys col).map Prod.fst).Nodup := by
    rw [rnOut_map_fst]
    exact hnd
  rw [alookup_eq_some_of_mem hnd2 hmem, rnFlat_lookup df keys col hnd g hg j hj]
  rfl

theorem rnOut_values (df : PDataFrame) (keys : List String) (col : String)
    (hnd : (df.rows.map Prod.fst).Nodup) :
    ∀ q ∈ rnOut df keys col, ∃ n : Nat, q.2 = .int ((n : Int) + 1) := by
  intro q hq
  obtain ⟨p, hp, rfl⟩ := List.mem_map.mp hq
  have hkmem : groupKeyOf df.cols keys p.2 ∈
      (df.rows.map (fun r => groupKeyOf df.cols keys r.2)).dedup.insertionSort
        (fun a b => idxCmp a b ≠ .gt) :=
    (List.perm_insertionSort _ _).mem_iff.mpr
      (List.mem_dedup.mpr (List.mem_map_of_mem _ hp))
  have hgmem : (groupKeyOf df.cols keys p.2, df.rows.filter
      (fun r => decide (groupKeyOf df.cols keys r.2 = groupKeyOf df.cols keys p.2))) ∈
      groupsOf df keys := List.mem_map_of_mem _ hkmem
  have hpmem : p ∈ df.rows.filter
      (fun r => decide (groupKeyOf df.cols keys r.2 = groupKeyOf df.cols keys p.2)) :=
    List.mem_filter.mpr ⟨hp, by simp⟩
  obtain ⟨⟨j, hj⟩, hget⟩ := List.mem_iff_get.mp hpmem
  refine ⟨j, ?_⟩
  have hl := rnFlat_lookup df keys col hnd _ hgmem j hj
  rw [hget] at hl
  show (alookup p.1 (rnFlat df keys col)).getD .null = .int ((j : Int) + 1)
  rw [hl]
  rfl

/-- `analyticEvaluate` on `ROW_NUMBER` with one argument always
succeeds, producing the per-partition numbering realigned on the
grouping frame. -/
theorem analyticEvaluate_row_number (np : Nat) (asc : List Bool)
    (c0 : PSeries × Option BQType) (rest : List (PSeries × Option BQType)) :
    analyticEvaluate .row_number 1 np asc (c0 :: rest) =
      .ok ⟨.series ⟨rnOut (anDfk 1 np asc (c0 :: rest)).1
          (anDfk 1 np asc (c0 :: rest)).2 "_col0", none⟩,
        some .integer⟩ := by
  have htake : ((List.range (c0 :: rest).length).map
      (fun j => "_col" ++ toString j)).take 1 = ["_col0"] := by
    rw [List.length_cons, List.range_succ_eq_map]
    rfl
  simp only [analyticEvaluate]
  rw [htake]
  simp only [FuncInfo.compute_result_type, FuncInfo.result_type, exceptBind_ok]
  rw [exceptList_transform_row_number]
  simp only [exceptBind_ok]
  rfl

/-- C7: `ROW_NUMBER() OVER (PARTITION BY p ORDER BY o)` on children
series sharing one duplicate-free index: evaluation succeeds with an
INTEGER column holding one value per input row (the index labels are a
permutation of the input's), every value is some `n + 1 ≥ 1`, the frame
is sorted by the ORDER BY keys before grouping (ascending by default,
descending as directed), the grouping frame keeps that sorted row
order, and within each partition group the `j`-th member row (0-based,
in the sorted order) is assigned exactly `j + 1` — the integers
`1..N` per group. -/
theorem row_number_numbers_partitions (np : Nat) (asc : List Bool)
    (c0 : PSeries × Option BQType) (rest : List (PSeries × Option BQType))
    (I : List Idx) (hI : c0.1.rows.map Prod.fst = I) (hnd : I.Nodup) :
    ∃ outRows : List (Idx × Cell),
      analyticEvaluate .row_number 1 np asc (c0 :: rest) =
        .ok ⟨.series ⟨outRows, none⟩, some .integer⟩ ∧
      outRows.length = c0.1.rows.length ∧
      (outRows.map Prod.fst).Perm I ∧
      (∀ q ∈ outRows, ∃ n : Nat, q.2 = .int ((n : Int) + 1)) ∧
      (anOrderPaths 1 np (c0 :: rest) ≠ [] →
        (anDf1 1 np asc (c0 :: rest)).rows.Sorted
          (rowLe (anDf0 (c0 :: rest)).cols ((anOrderPaths 1 np (c0 :: rest)).zip asc))) ∧
      ((anDfk 1 np asc (c0 :: rest)).1.rows.map Prod.fst =
        (anDf1 1 np asc (c0 :: rest)).rows.map Prod.fst) ∧
      (∀ g ∈ groupsOf (anDfk 1 np asc (c0 :: rest)).1 (anDfk 1 np asc (c0 :: rest)).2,
        g.2.Sublist (anDfk 1 np asc (c0 :: rest)).1.rows ∧
        ∀ j (hj : j < g.2.length),
          alookup (g.2.get ⟨j, hj⟩).1 outRows = some (.int ((j : Int) + 1))) := by
  have hfst0 : (anDf0 (c0 :: rest)).rows.map Prod.fst = I := by
    show List.map Prod.fst ((anIndex (c0 :: rest)).map _) = I
    rw [List.map_map]
    show (anIndex (c0 :: rest)).map id = I
    rw [List.map_id]
    show c0.1.rows.map Prod.fst = I
    exact hI
  have hperm1 : (anDf1 1 np asc (c0 :: rest)).rows.Perm (anDf0 (c0 :: rest)).rows := by
    unfold anDf1
    split
    · exact List.Perm.refl _
    · exact List.perm_insertionSort _ _
  have hfstk : (anDfk 1 np asc (c0 :: rest)).1.rows.map Prod.fst =
      (anDf1 1 np asc (c0 :: rest)).rows.map Prod.fst := by
    unfold anDfk
    split
    · show ((anDf1 1 np asc (c0 :: rest)).rows.map _).map Prod.fst = _
      rw [List.map_map]
      rfl
    · rfl
  have hpermI : ((anDfk 1 np asc (c0 :: rest)).1.rows.map Prod.fst).Perm I := by
    rw [hfstk, ← hfst0]
    exact hperm1.map Prod.fst
  have hndK : ((anDfk 1 np asc (c0 :: rest)).1.rows.map Prod.fst).Nodup :=
    hpermI.nodup_iff.mpr hnd
  refine ⟨rnOut (anDfk 1 np asc (c0 :: rest)).1 (anDfk 1 np asc (c0 :: rest)).2 "_col0",
    analyticEvaluate_row_number np asc c0 rest, ?_, ?_, ?_, ?_, hfstk, ?_⟩
  · have h2 := hpermI.length_eq
    rw [List.length_map] at h2
    have h3 := congrArg List.length hI
    rw [List.length_map] at h3
    show ((anDfk 1 np asc (c0 :: rest)).1.rows.map _).length = c0.1.rows.length
    rw [List.length_map]
    omega
  · rw [rnOut_map_fst]
    exact hpermI
  · exact rnOut_values _ _ _ hndK
  · intro hne
    unfold anDf1
    rw [if_neg (fun h => hne (List.isEmpty_iff.mp h))]
    exact List.sorted_insertionSort _ _
  · intro g hg
    exact ⟨groupsOf_member_sublist _ _ g hg,
      fun j hj => rnOut_lookup _ _ _ hndK g hg j hj⟩

/-- The evaluated argument child of a concrete
`ROW_NUMBER() OVER (PARTITION BY p ORDER BY o)` call. -/
def rnArg : PSeries × Option BQType :=
  (⟨[([.int 0], .int 10), ([.int 1], .int 20), ([.int 2], .int 30),
     ([.int 3], .int 40)], some "a"⟩, some .integer)

/-- The evaluated PARTITION BY child: two partitions, 1 and 2. -/
def rnPart : PSeries × Option BQType :=
  (⟨[([.int 0], .int 1), ([.int 1], .int 2), ([.int 2], .int 1),
     ([.int 3], .int 2)], none⟩, some .integer)

/-- The evaluated ORDER BY child: descending values, so the sort
reverses the frame. -/
def rnOrd : PSeries × Option BQType :=
  (⟨[([.int 0], .int 9), ([.int 1], .int 8), ([.int 2], .int 7),
     ([.int 3], .int 6)], none⟩, some .integer)

/-- C7 witness: the concrete three-child call, with partitions `1` and
`2` of two rows each and a reversing ORDER BY. -/
theorem row_number_numbers_partitions_witness :
    ∃ outRows : List (Idx × Cell),
      analyticEvaluate .row_number 1 1 [true] [rnArg, rnPart, rnOrd] =
        .ok ⟨.series ⟨outRows, none⟩, some .integer⟩ ∧
      outRows.length = rnArg.1.rows.length ∧
      (outRows.map Prod.fst).Perm [[.int 0], [.int 1], [.int 2], [.int 3]] ∧
      (∀ q ∈ outRows, ∃ n : Nat, q.2 = .int ((n : Int) + 1)) ∧
      (anOrderPaths 1 1 [rnArg, rnPart, rnOrd] ≠ [] →
        (anDf1 1 1 [true] [rnArg, rnPart, rnOrd]).rows.Sorted
          (rowLe (anDf0 [rnArg, rnPart, rnOrd]).cols
            ((anOrderPaths 1 1 [rnArg, rnPart, rnOrd]).zip [true]))) ∧
      ((anDfk 1 1 [true] [rnArg, rnPart, rnOrd]).1.rows.map Prod.fst =
        (anDf1 1 1 [true] [rnArg, rnPart, rnOrd]).rows.map Prod.fst) ∧
      (∀ g ∈ groupsOf (anDfk 1 1 [true] [rnArg, rnPart, rnOrd]).1
          (anDfk 1 1 [true] [rnArg, rnPart, rnOrd]).2,
        g.2.Sublist (anDfk 1 1 [true] [rnArg, rnPart, rnOrd]).1.rows ∧
        ∀ j (hj : j < g.2.length),
          alookup (g.2.get ⟨j, hj⟩).1 outRows = some (.int ((j : Int) + 1))) :=
  row_number_numbers_partitions 1 [true] rnArg [rnPart, rnOrd]
    [[.int 0], [.int 1], [.int 2], [.int 3]] rfl (by decide)

end PurpleQuery
